import Mathlib

/-!
Verification of the two Ansible modules of the pluribus-ansible repository:
`ansible/library/pn_ebgp_ospf.py` and `ansible/library/pn_vlag.py`.

The modules build CLI command strings, execute them against a Pluribus
switch, and parse whitespace-delimited textual output.  The remote switch
is an external collaborator: we model it as a static oracle (`World`)
that gives, for each kind of `show` query, the whitespace tokens of the
stdout the switch would print.  Action commands (`...-create`, `...-add`,
`...-modify`) are modelled as producing no stdout and no stderr, so that
`run_cli` yields the literal string `Success` for them, which is what the
Python code tests for.  Each configuration step is embedded as a pure
function from the oracle and the module parameters to the list of
structured action commands it issues and the list of booleans it appends
to the global `CHANGED_FLAG` accumulator.
-/

/-- Python substring test `needle in hay` on strings. -/
def strContains (needle hay : String) : Bool :=
  decide (needle.data <:+: hay.data)

/-- The token list seen by the Python code after `run_cli(...).split()`.
`run_cli` returns the raw stdout when it is non-empty and the literal
string `Success` when stdout and stderr are both empty, so an empty
result table is seen as the single token `Success`.  (A stdout that is
non-empty but all whitespace is not representable in this model.) -/
def tokensOf (out : List String) : List String :=
  if out = [] then ["Success"] else out

/-- Python `run_cli(...).split()[0]`: the first token.  `tokensOf` is
never empty, so the Python `IndexError` cannot occur here either. -/
def firstTok (out : List String) : String :=
  (tokensOf out).headD ""

/-- Python `run_cli(...)` used unsplit: the raw stdout, or `Success` when
the output is empty (pn_ebgp_ospf.py line 440 uses the unsplit string). -/
def rawOf (out : List String) : String :=
  if out = [] then "Success" else " ".intercalate out

/-- A Python whitespace character, as stripped by `str.strip()`. -/
def pyIsSpace (c : Char) : Bool :=
  decide (c = ' ' ∨ c = '\t' ∨ c = '\n' ∨ c = '\r' ∨ c = '\x0b' ∨ c = '\x0c')

/-- Python `s.strip()`: drop leading and trailing whitespace. -/
def pyStrip (s : String) : String :=
  String.mk (((s.data.dropWhile pyIsSpace).reverse.dropWhile pyIsSpace).reverse)

/-- The payload of `module.exit_json(error='1', failed=True, ...)` issued
by `run_cli` on stderr (pn_ebgp_ospf.py lines 176-182). -/
structure FailPayload where
  error : String
  failed : Bool
  stderr : String
  msg : String
  changed : Bool
  deriving DecidableEq, Repr

/-- Embedding of `run_cli` (pn_ebgp_ospf.py lines 161-184) as a function
of the captured stdout `out` and stderr `err` of the subprocess.  The
source first returns `out` whenever it is non-empty (Python truthiness),
only then inspects `err`; `exit_json(failed=True, ...)` terminates the
whole run and is modelled as `Except.error`.  Python `err.strip()` is `pyStrip`; the `msg` field keeps the unsplit command string where
Python formats the argv list. -/
def run_cli (cli out err : String) : Except FailPayload String :=
  if out ≠ "" then .ok out
  else if err ≠ "" then
    .error { error := "1", failed := true, stderr := pyStrip err,
             msg := "Operation Failed: " ++ cli, changed := false }
  else .ok "Success"

/-! ## pn_vlag.py -/

/-- The module parameters of pn_vlag.py (lines 156-201).  Optional string
parameters default to `none` (Python `None`); `quiet` defaults to true. -/
structure VlagParams where
  cliusername : String
  clipassword : String
  vlagcommand : String
  vlagname : String
  vlaglport : Option String
  vlagpeerport : Option String
  vlagmode : Option String
  vlagpeerswitch : Option String
  vlagfailover : Option String
  vlaglacpmode : Option String
  vlaglacptimeout : Option String
  vlagfallback : Option String
  vlagfallbacktimeout : Option String
  quiet : Bool
  deriving DecidableEq, Repr

/-- Value of an optional Python string parameter, `None` read as `''`. -/
def optStr (o : Option String) : String := o.getD ""

/-- Python truthiness of an optional string parameter: present and
non-empty. -/
def truthy (o : Option String) : Bool := o.getD "" ≠ ""

/-- One `vlag += ...` step of pn_vlag.py guarded by a truthiness test. -/
def appendIf (cond : Bool) (s chunk : String) : String :=
  if cond then s ++ chunk else s

/-- The command string assembled by pn_vlag.py `main` (lines 203-238),
with every `vlag += ...` append in source order.  Note lines 223 and 232
concatenate `' peer-switch'` and `' lacp-timeout'` directly with their
values, without a separating space. -/
def buildVlagCmd (p : VlagParams) : String :=
  let cli :=
    if p.quiet then
      "/usr/bin/cli --quiet --user " ++ p.cliusername ++ ":" ++ p.clipassword ++ " "
    else
      "/usr/bin/cli --user " ++ p.cliusername ++ ":" ++ p.clipassword ++ " "
  let v := cli
  let v := appendIf (p.vlagname ≠ "") v (p.vlagcommand ++ " name " ++ p.vlagname)
  let v := appendIf (truthy p.vlaglport) v (" port " ++ optStr p.vlaglport)
  let v := appendIf (truthy p.vlagpeerport) v (" peer-port " ++ optStr p.vlagpeerport)
  let v := appendIf (truthy p.vlagmode) v (" mode " ++ optStr p.vlagmode)
  let v := appendIf (truthy p.vlagpeerswitch) v (" peer-switch" ++ optStr p.vlagpeerswitch)
  let v := appendIf (truthy p.vlagfailover) v (" " ++ optStr p.vlagfailover)
  let v := appendIf (truthy p.vlaglacpmode) v (" lacp-mode " ++ optStr p.vlaglacpmode)
  let v := appendIf (truthy p.vlaglacptimeout) v (" lacp-timeout" ++ optStr p.vlaglacptimeout)
  let v := appendIf (truthy p.vlagfallback) v (" lacp-fallback " ++ optStr p.vlagfallback)
  let v := appendIf (truthy p.vlagfallbacktimeout) v (" lacp-fallback-timeout " ++ optStr p.vlagfallbacktimeout)
  v

/-- Python `s.rstrip("\r\n")`: drop trailing carriage returns and
newlines. -/
def pyRstripCrLf (s : String) : String :=
  String.mk ((s.data.reverse.dropWhile (fun c => c = '\r' ∨ c = '\n')).reverse)

/-- The payload pn_vlag.py passes to `module.exit_json` (lines 245-256). -/
structure VlagPayload where
  vlagcmd : String
  stdout : Option String
  stderr : Option String
  changed : Bool
  deriving DecidableEq, Repr

/-- Tail of pn_vlag.py `main` (lines 240-256) after the subprocess has
produced stdout `out` and stderr `err`: `exit_json` with `changed=True`
on non-empty stdout, else `exit_json` with `changed=False` on non-empty
stderr, else the function falls off the end without calling `exit_json`
at all, modelled as `none`. -/
def vlagMain (p : VlagParams) (out err : String) : Option VlagPayload :=
  if out ≠ "" then
    some { vlagcmd := buildVlagCmd p, stdout := some (pyRstripCrLf out),
           stderr := none, changed := true }
  else if err ≠ "" then
    some { vlagcmd := buildVlagCmd p, stdout := none,
           stderr := some (pyRstripCrLf err), changed := false }
  else none

/-! ### Whitespace tokenization

`shlex.split` on the quote-free, backslash-free command strings these
modules build is exactly splitting on runs of whitespace; the strings
built here contain only spaces as whitespace. -/

/-- Splitting a character list on runs of spaces; `acc` holds the
characters of the current (reversed) partial token. -/
def splitWsAux : List Char → List Char → List (List Char)
  | [], acc => if acc = [] then [] else [acc.reverse]
  | c :: cs, acc =>
    if c = ' ' then
      if acc = [] then splitWsAux cs [] else acc.reverse :: splitWsAux cs []
    else splitWsAux cs (c :: acc)

/-- Models `shlex.split` on the quote-free command strings built by these
modules: the maximal space-free tokens of the string. -/
def shlexTokens (s : String) : List String :=
  (splitWsAux s.data []).map (fun l => String.mk l)

theorem splitWsAux_append_space (ys : List Char) :
    ∀ xs acc, splitWsAux (xs ++ ' ' :: ys) acc =
      splitWsAux xs acc ++ splitWsAux ys [] := by
  intro xs
  induction xs with
  | nil =>
    intro acc
    by_cases h : acc = [] <;> simp [splitWsAux, h]
  | cons c cs ih =>
    intro acc
    by_cases hc : c = ' '
    · subst hc
      by_cases h : acc = [] <;> simp [splitWsAux, h, ih]
    · simp [splitWsAux, hc, ih]

theorem splitWsAux_no_space :
    ∀ xs acc, ' ' ∉ xs →
      splitWsAux xs acc =
        if acc.reverse ++ xs = [] then [] else [acc.reverse ++ xs] := by
  intro xs
  induction xs with
  | nil =>
    intro acc _
    by_cases h : acc = [] <;> simp [splitWsAux, h]
  | cons c cs ih =>
    intro acc hn
    have hc : c ≠ ' ' := by
      intro hh; exact hn (hh ▸ List.mem_cons_self c cs)
    have hcs : ' ' ∉ cs := fun hh => hn (List.mem_cons_of_mem _ hh)
    have : splitWsAux (c :: cs) acc = splitWsAux cs (c :: acc) := by
      simp [splitWsAux, hc]
    rw [this, ih (c :: acc) hcs]
    simp

/-- The shape invariant used for claim C9: the string contains a space,
then the word `w` directly, then either nothing or a space-led rest. -/
def HasWordChunk (s w : String) : Prop :=
  ∃ A B, s.data = A ++ ' ' :: w.data ++ B ∧ (B = [] ∨ ∃ B', B = ' ' :: B')

theorem HasWordChunk.extend {s w : String} (h : HasWordChunk s w)
    (c : String) (hc : c.data = [] ∨ ∃ t, c.data = ' ' :: t) :
    HasWordChunk (s ++ c) w := by
  obtain ⟨A, B, hs, hB⟩ := h
  refine ⟨A, B ++ c.data, ?_, ?_⟩
  · simp [hs]
  · rcases hB with hB | ⟨B', hB⟩
    · subst hB
      rcases hc with hc | ⟨t, hc⟩
      · left; simp [hc]
      · right; exact ⟨t, by simp [hc]⟩
    · right; exact ⟨B' ++ c.data, by simp [hB]⟩

theorem HasWordChunk.extendIf {s w : String} (h : HasWordChunk s w)
    (cond : Bool) (c : String) (hc : c.data = [] ∨ ∃ t, c.data = ' ' :: t) :
    HasWordChunk (appendIf cond s c) w := by
  unfold appendIf
  by_cases hcond : cond = true
  · simpa [hcond] using h.extend c hc
  · simpa [hcond] using h

theorem HasWordChunk.token {s w : String} (h : HasWordChunk s w)
    (hne : w.data ≠ []) (hsp : ' ' ∉ w.data) : w ∈ shlexTokens s := by
  obtain ⟨A, B, hs, hB⟩ := h
  unfold shlexTokens
  have hs' : s.data = A ++ ' ' :: (w.data ++ B) := by
    rw [hs]; simp
  rw [hs', splitWsAux_append_space (w.data ++ B) A []]
  rcases hB with hB | ⟨B', hB⟩
  · subst hB
    rw [List.append_nil, splitWsAux_no_space w.data [] hsp]
    simp only [List.reverse_nil, List.nil_append]
    rw [if_neg hne]
    refine List.mem_map.2 ⟨w.data, by simp, ?_⟩
    cases w; rfl
  · subst hB
    rw [show w.data ++ ' ' :: B' = w.data ++ ' ' :: B' from rfl,
      splitWsAux_append_space B' w.data []]
    rw [splitWsAux_no_space w.data [] hsp]
    simp only [List.reverse_nil, List.nil_append]
    rw [if_neg hne]
    refine List.mem_map.2 ⟨w.data, by simp, ?_⟩
    cases w; rfl

/-! ## pn_ebgp_ospf.py: the remote fabric as a static oracle -/

/-- Python `s.split(sep)` for a one-character separator: auxiliary
splitter; `acc` holds the reversed current field. -/
def pySplitAux (sep : Char) : List Char → List Char → List (List Char)
  | [], acc => [acc.reverse]
  | c :: cs, acc =>
    if c = sep then acc.reverse :: pySplitAux sep cs []
    else pySplitAux sep cs (c :: acc)

/-- Python `s.split(sep)` for a one-character separator.  Always returns
at least one field (like Python). -/
def pySplit (s : String) (sep : Char) : List String :=
  (pySplitAux sep s.data []).map (fun l => String.mk l)

/-- Python list indexing `l[i]`.  Out-of-range indexing raises
`IndexError` in Python and aborts the module; the embedding returns `""`
there, and the theorems below never depend on that case. -/
def pyIx (l : List String) (i : Nat) : String := l.getD i ""

/-- A decimal digit character. -/
def isDigitCh (c : Char) : Bool := decide (48 ≤ c.toNat ∧ c.toNat ≤ 57)

/-- The value of a list of decimal digits, most significant first. -/
def natOfDigits (cs : List Char) : Nat :=
  cs.foldl (fun n c => n * 10 + (c.toNat - 48)) 0

/-- Python `int(s)` on the canonical decimal strings these modules feed
it (a non-numeric string would raise `ValueError` in Python; the
embedding returns 0 there and no theorem below depends on it). -/
def pyInt (s : String) : Nat :=
  if s.data ≠ [] ∧ s.data.all isDigitCh then natOfDigits s.data else 0

/-- Python `list(set(xs))`: duplicate removal.  The order of a Python
set is unspecified; the embedding fixes it as `List.dedup`. -/
def pySet (xs : List String) : List String := xs.dedup

/-- The static oracle for the remote switch fabric: for each kind of
`show` invocation issued by pn_ebgp_ospf.py, the whitespace tokens of
the stdout the fabric would print (empty list = empty output, which
`run_cli` turns into the token `Success`). -/
structure World where
  /-- ` vrouter-show format name no-show-headers ` -/
  vrouterNames : List String
  /-- ` vrouter-show name V format location no-show-headers ` -/
  vrouterLocation : String → List String
  /-- ` cluster-show format name no-show-headers ` -/
  clusterNames : List String
  /-- ` switch S cluster-show format name no-show-headers ` -/
  clusterNamesOn : String → List String
  /-- ` cluster-show format cluster-node-1 no-show-headers ` -/
  clusterNode1All : List String
  /-- ` cluster-show format cluster-node-2 no-show-headers ` -/
  clusterNode2All : List String
  /-- ` cluster-show cluster-node-1 S format cluster-node-2 no-show-headers ` -/
  clusterNode2ByNode1 : String → List String
  /-- ` cluster-show cluster-node-2 S format cluster-node-1 no-show-headers ` -/
  clusterNode1ByNode2 : String → List String
  /-- ` cluster-show name C format cluster-node-1 no-show-headers ` -/
  clusterNode1ByName : String → List String
  /-- ` cluster-show name C format cluster-node-2 no-show-headers ` -/
  clusterNode2ByName : String → List String
  /-- ` switch S vlan-show format id no-show-headers ` -/
  vlanIds : String → List String
  /-- ` vrouter-show location S format name no-show-headers ` -/
  vrouterAtLocation : String → List String
  /-- ` vrouter-show name V format bgp-as, no-show-headers ` -/
  bgpAsOf : String → List String
  /-- ` vrouter-interface-show ip I vlan V format switch no-show-headers ` -/
  ifaceSwitchByIpVlan : String → String → List String
  /-- ` vrouter-bgp-show remote-as R neighbor N format switch no-show-headers ` -/
  bgpNbrSwitch : String → String → List String
  /-- ` switch S lldp-show format sys-name no-show-headers ` -/
  lldpSysNames : String → List String
  /-- ` vrouter-interface-show vrouter-name V format l3-port no-show-headers ` -/
  l3Ports : String → List String
  /-- ` switch S port-show port P format hostname no-show-headers ` -/
  portHostname : String → String → List String
  /-- ` switch S port-show port P format rport no-show-headers ` -/
  portRport : String → String → List String
  /-- ` vrouter-interface-show vrouter-name V l3-port P format ip no-show-headers ` -/
  ifaceIpByPort : String → String → List String
  /-- ` vrouter-loopback-interface-show vrouter-name V format ip no-show-headers ` -/
  loopbackIp : String → List String
  /-- ` vrouter-ospf-show network N format switch no-show-headers ` -/
  ospfSwitchByNetwork : String → List String
  /-- ` vrouter-show location H format bgp-as no-show-headers ` -/
  bgpAsAtLocation : String → List String
  /-- ` vrouter-interface-show vrouter-name V ip IP format nic no-show-headers ` -/
  nicByIp : String → String → List String

/-- The module parameters of pn_ebgp_ospf.py `main` (lines 854-873). -/
structure Params where
  spineList : List String
  leafList : List String
  bgpAsRange : String
  bgpRedistribute : String
  bgpMaxpath : String
  bfd : Bool
  ibgpIpRange : String
  ibgpVlan : String
  ospfAreaId : String
  routingProtocol : String
  deriving DecidableEq, Repr

/-- The action (state-changing) CLI commands pn_ebgp_ospf.py issues,
with the arguments interpolated into the command string. -/
inductive Cmd where
  /-- ` vrouter-modify name V bgp-as A ` -/
  | vrouterModifyBgpAs (vrouter bgpAs : String)
  /-- ` switch S vlan-create id I scope local ` -/
  | vlanCreate (switch vlanId : String)
  /-- ` vrouter-interface-add vrouter-name V ip I vlan L ` -/
  | vrouterInterfaceAdd (vrouter ip vlanId : String)
  /-- ` vrouter-bgp-add vrouter-name V neighbor N remote-as R ` with
  optional ` next-hop-self `, ` bfd ` and ` weight 100 allowas-in `. -/
  | vrouterBgpAdd (vrouter neighbor remoteAs : String)
      (nextHopSelf bfd weight : Bool)
  /-- ` switch S cluster-create name C cluster-node-1 N1 cluster-node-2 N2 ` -/
  | clusterCreate (switch name node1 node2 : String)
  /-- ` vrouter-modify name V router-id I ` -/
  | vrouterModifyRouterId (vrouter routerId : String)
  /-- ` vrouter-modify name V bgp-redistribute R ` -/
  | vrouterModifyBgpRedistribute (vrouter value : String)
  /-- ` vrouter-modify name V bgp-max-paths M ` -/
  | vrouterModifyBgpMaxpath (vrouter value : String)
  /-- ` vrouter-ospf-add vrouter-name V network N ospf-area A ` -/
  | vrouterOspfAdd (vrouter network area : String)
  /-- ` vrouter-modify name V ospf-redistribute static,connected ` -/
  | vrouterModifyOspfRedistribute (vrouter : String)
  /-- ` vrouter-interface-config-modify vrouter-name V nic N ospf-bfd enable ` -/
  | ospfBfdModify (vrouter nic : String)
  deriving DecidableEq, Repr

/-- What one configuration step contributes: the action commands it
issues, in order, and the booleans it appends to the global
`CHANGED_FLAG` list, in order. -/
structure StepOut where
  cmds : List Cmd
  flags : List Bool
  deriving DecidableEq, Repr

instance : Append StepOut where
  append a b := { cmds := a.cmds ++ b.cmds, flags := a.flags ++ b.flags }

theorem StepOut.append_cmds (a b : StepOut) :
    (a ++ b).cmds = a.cmds ++ b.cmds := rfl

theorem StepOut.append_flags (a b : StepOut) :
    (a ++ b).flags = a.flags ++ b.flags := rfl

def StepOut.nil : StepOut := { cmds := [], flags := [] }

/-! ## pn_ebgp_ospf.py: the configuration steps -/

/-- Embedding of `create_cluster` (pn_ebgp_ospf.py lines 603-627).  When
the cluster name is already present in node1's cluster list the source
issues no command but still appends `True` to `CHANGED_FLAG` (line 626),
unlike every other already-configured branch of the module, which
appends `False`. -/
def create_cluster (w : World) (switch name node1 node2 : String) : StepOut :=
  let clusterList := tokensOf (w.clusterNamesOn node1)
  if name ∉ clusterList then
    { cmds := [.clusterCreate switch name node1 node2], flags := [true] }
  else
    { cmds := [], flags := [true] }

/-- Embedding of `leaf_no_cluster` (pn_ebgp_ospf.py lines 580-600):
leaves that appear in neither cluster-node column. -/
def leaf_no_cluster (w : World) (leafList : List String) : List String :=
  let cluster1 := tokensOf w.clusterNode1All
  let cluster2 := tokensOf w.clusterNode2All
  leafList.filter (fun leaf => decide (leaf ∉ cluster1 ∧ leaf ∉ cluster2))

/-- The inner candidate scan of `leaf_cluster_formation` (pn_ebgp_ospf.py
lines 654-671): walk the LLDP system names of `node1` until a switch is
found that is not a spine and is still in the unclustered set `rest`;
create one cluster for the pair and remove the partner from the set.
Candidates that are not spines but already clustered append `False` to
`CHANGED_FLAG`; spine candidates are only printed. -/
def lcfInner (w : World) (p : Params) (node1 : String) :
    List String → List String → StepOut × List String
  | [], rest => (StepOut.nil, rest)
  | sw :: more, rest =>
    if sw ∉ p.spineList then
      if sw ∈ rest then
        (create_cluster w sw (node1 ++ "-to-" ++ sw ++ "-cluster") node1 sw,
         rest.erase sw)
      else
        let r := lcfInner w p node1 more rest
        ({ cmds := r.1.cmds, flags := false :: r.1.flags }, r.2)
    else lcfInner w p node1 more rest

theorem lcfInner_length (w : World) (p : Params) (node1 : String) :
    ∀ names rest, (lcfInner w p node1 names rest).2.length ≤ rest.length := by
  intro names
  induction names with
  | nil => intro rest; simp [lcfInner]
  | cons sw more ih =>
    intro rest
    by_cases h1 : sw ∉ p.spineList
    · by_cases h2 : sw ∈ rest
      · simp only [lcfInner, if_pos h1, if_pos h2]
        exact (List.erase_sublist sw rest).length_le
      · simp only [lcfInner, if_pos h1, if_neg h2]
        exact ih rest
    · simp only [lcfInner, if_neg h1]
      exact ih rest

/-- The `while` loop of `leaf_cluster_formation` (pn_ebgp_ospf.py lines
642-671): repeatedly take the first remaining unclustered leaf, scan its
deduplicated LLDP neighbors for a partner, and continue on the shrunken
set.  The Python loop terminates because `node1` is removed on every
iteration; the loop is embedded structurally on a fuel that
`leaf_cluster_formation` sets to the exact iteration bound, the length
of the unclustered list (`lcfInner` never grows the set). -/
def lcfLoop (w : World) (p : Params) : Nat → List String → StepOut
  | 0, _ => StepOut.nil
  | _ + 1, [] => StepOut.nil
  | fuel + 1, node1 :: rest =>
    let names := pySet (tokensOf (w.lldpSysNames node1))
    let r := lcfInner w p node1 names rest
    r.1 ++ lcfLoop w p fuel r.2

/-- Embedding of `leaf_cluster_formation` (pn_ebgp_ospf.py lines
630-673). -/
def leaf_cluster_formation (w : World) (p : Params)
    (nonClusterLeaf : List String) : StepOut :=
  lcfLoop w p nonClusterLeaf.length nonClusterLeaf

/-- Embedding of `create_leaf_cluster` (pn_ebgp_ospf.py lines 676-687). -/
def create_leaf_cluster (w : World) (p : Params) : StepOut :=
  leaf_cluster_formation w p (leaf_no_cluster w p.leafList)

/-- The partner vrouter name computed inside the cluster loop of
`assigning_bgp_as` (pn_ebgp_ospf.py lines 237-250): query both
cluster-node columns for `switchName`; the column that produced no rows
reads `Success`, so the other column holds the partner switch, and the
partner vrouter is `<partner-switch>-vrouter`.  The source recomputes
this inside the loop over matching cluster names, but the queries depend
only on `switchName`, so the value is loop-invariant and hoisted here. -/
def partnerVrouter (w : World) (switchName : String) : String :=
  let clusterNode2 := firstTok (w.clusterNode2ByNode1 switchName)
  let clusterNode1 := firstTok (w.clusterNode1ByNode2 switchName)
  if strContains "Success" clusterNode2 then clusterNode1 ++ "-vrouter"
  else clusterNode2 ++ "-vrouter"

/-- The vrouter loop of `assigning_bgp_as` (pn_ebgp_ospf.py lines
207-261).  `bgpLeaf` is the running leaf AS and `modified` the
`modified_vrouters` list.  A vrouter located on a spine is assigned the
base AS; an unmodified vrouter located on a leaf is assigned the current
leaf AS, then for every cluster whose *name* contains the switch name as
a substring the partner vrouter is assigned the same leaf AS and marked
modified, and the leaf AS is incremented once. -/
def bgpAsGo (w : World) (p : Params) (bgpSpine : String) :
    List String → Nat → List String → StepOut
  | [], _, _ => StepOut.nil
  | vrouter :: rest, bgpLeaf, modified =>
    let switchName := firstTok (w.vrouterLocation vrouter)
    let spinePart : StepOut :=
      if switchName ∈ p.spineList then
        { cmds := [.vrouterModifyBgpAs vrouter bgpSpine], flags := [true] }
      else StepOut.nil
    if switchName ∈ p.leafList ∧ vrouter ∉ modified then
      let own : StepOut :=
        { cmds := [.vrouterModifyBgpAs vrouter (toString bgpLeaf)], flags := [true] }
      let hits := (tokensOf w.clusterNames).filter (fun c => strContains switchName c)
      let partnerPart : StepOut :=
        { cmds := hits.map (fun _ =>
            .vrouterModifyBgpAs (partnerVrouter w switchName) (toString bgpLeaf)),
          flags := hits.map (fun _ => true) }
      spinePart ++ own ++ partnerPart ++
        bgpAsGo w p bgpSpine rest (bgpLeaf + 1)
          (modified ++ [vrouter] ++ hits.map (fun _ => partnerVrouter w switchName))
    else
      spinePart ++ bgpAsGo w p bgpSpine rest bgpLeaf modified

/-- Embedding of `assigning_bgp_as` (pn_ebgp_ospf.py lines 187-267).
`bgp_leaf = int(bgp_spine) + 1`; the spine assignment uses the original
`bgp_spine` string, the leaf assignments use `str(bgp_leaf)`. -/
def assigning_bgp_as (w : World) (p : Params) (bgpSpine : String) : StepOut :=
  let vrouterNames := tokensOf w.vrouterNames
  if vrouterNames.length > 0 then
    bgpAsGo w p bgpSpine vrouterNames (pyInt bgpSpine + 1) []
  else { cmds := [], flags := [false] }

/-- Embedding of `vrouter_interface_ibgp_add` (pn_ebgp_ospf.py lines
270-344): create the iBGP vlan, the vrouter interface and the iBGP
neighbor on `switchName`, each guarded by an already-configured check
that appends `False` instead of issuing the command. -/
def vrouter_interface_ibgp_add (w : World) (p : Params)
    (switchName interfaceIp neighborIp : String) : StepOut :=
  let vlanId := p.ibgpVlan
  let existingVlans := tokensOf (w.vlanIds switchName)
  let vlanPart : StepOut :=
    if vlanId ∉ existingVlans then
      { cmds := [.vlanCreate switchName vlanId], flags := [true] }
    else { cmds := [], flags := [false] }
  let vrouter := firstTok (w.vrouterAtLocation switchName)
  let remoteAs := firstTok (w.bgpAsOf vrouter)
  let existingIface := tokensOf (w.ifaceSwitchByIpVlan interfaceIp vlanId)
  let ifacePart : StepOut :=
    if vrouter ∉ existingIface then
      { cmds := [.vrouterInterfaceAdd vrouter interfaceIp vlanId], flags := [true] }
    else { cmds := [], flags := [false] }
  let neighborIp2 := pyIx (pySplit neighborIp '/') 0
  let alreadyAdded := tokensOf (w.bgpNbrSwitch remoteAs neighborIp2)
  let nbrPart : StepOut :=
    if vrouter ∉ alreadyAdded then
      { cmds := [.vrouterBgpAdd vrouter neighborIp2 remoteAs true false false],
        flags := [true] }
    else { cmds := [], flags := [false] }
  vlanPart ++ ifacePart ++ nbrPart

/-- The static three-octet prefix `assigning_ibgp_interface` cuts from
`pn_ibgp_ip_range` (pn_ebgp_ospf.py lines 362-364). -/
def ibgpStaticPart (ipRange : String) : String :=
  let address := pySplit ipRange '.'
  pyIx address 0 ++ "." ++ pyIx address 1 ++ "." ++ pyIx address 2 ++ "."

/-- The allocation loop of `assigning_ibgp_interface` (pn_ebgp_ospf.py
lines 371-392): clusters whose node-1 is a non-spine leaf, in
cluster-list order, paired with the two `/30` interface addresses
`staticPart.(4k+1)/30` and `staticPart.(4k+2)/30` of the running subnet
counter.  Returns `(node1, node2, ip1, ip2)` per qualifying cluster. -/
def ibgpAlloc (w : World) (p : Params) (staticPart : String) :
    List String → Nat → List (String × String × String × String)
  | [], _ => []
  | cluster :: rest, subnetCount =>
    let clusterNode1 := firstTok (w.clusterNode1ByName cluster)
    if clusterNode1 ∉ p.spineList ∧ clusterNode1 ∈ p.leafList then
      let ipCount := subnetCount * 4
      let ip1 := staticPart ++ toString (ipCount + 1) ++ "/" ++ toString 30
      let ip2 := staticPart ++ toString (ipCount + 2) ++ "/" ++ toString 30
      let clusterNode2 := firstTok (w.clusterNode2ByName cluster)
      (clusterNode1, clusterNode2, ip1, ip2) ::
        ibgpAlloc w p staticPart rest (subnetCount + 1)
    else ibgpAlloc w p staticPart rest subnetCount

/-- Embedding of `assigning_ibgp_interface` (pn_ebgp_ospf.py lines
347-396).  The source interleaves the allocation and the two
`vrouter_interface_ibgp_add` calls in one loop; since the oracle is
read-only this is factored into `ibgpAlloc` followed by the calls
`(node1, ip1, ip2)` and `(node2, ip2, ip1)` per qualifying cluster. -/
def assigning_ibgp_interface (w : World) (p : Params) : StepOut :=
  let staticPart := ibgpStaticPart p.ibgpIpRange
  let clusterList := tokensOf w.clusterNames
  if clusterList.length > 0 ∧ pyIx clusterList 0 ≠ "Success" then
    (ibgpAlloc w p staticPart clusterList 0).foldr
      (fun a acc =>
        vrouter_interface_ibgp_add w p a.1 a.2.2.1 a.2.2.2 ++
        vrouter_interface_ibgp_add w p a.2.1 a.2.2.2 a.2.2.1 ++ acc)
      StepOut.nil
  else StepOut.nil

/-- Embedding of `bgp_redistribute` (pn_ebgp_ospf.py lines 530-552). -/
def bgp_redistribute (w : World) (bgpRedis : String) : StepOut :=
  { cmds := (tokensOf w.vrouterNames).map
      (fun vrouter => .vrouterModifyBgpRedistribute vrouter bgpRedis),
    flags := (tokensOf w.vrouterNames).map (fun _ => true) }

/-- Embedding of `bgp_maxpath` (pn_ebgp_ospf.py lines 555-577). -/
def bgp_maxpath (w : World) (bgpMax : String) : StepOut :=
  { cmds := (tokensOf w.vrouterNames).map
      (fun vrouter => .vrouterModifyBgpMaxpath vrouter bgpMax),
    flags := (tokensOf w.vrouterNames).map (fun _ => true) }

/-- The per-port body of the `bgp_neighbor` loop (pn_ebgp_ospf.py lines
426-486): resolve the remote hostname, its vrouter, its AS and the
interface address behind the port, then add the eBGP neighbor unless it
is already configured. -/
def bgpNbrPort (w : World) (p : Params) (vrouter switch0 port : String) : StepOut :=
  let hostname := firstTok (w.portHostname switch0 port)
  let bgpHostname := firstTok (w.bgpAsAtLocation hostname)
  let portHostname := rawOf (w.portRport switch0 port)
  let vrouterHostname := firstTok (w.vrouterAtLocation hostname)
  let ipTokens := (tokensOf (w.ifaceIpByPort vrouterHostname portHostname)).erase
    vrouterHostname
  let ipHostname := pyIx (pySplit (pyIx ipTokens 0) '/') 0
  let alreadyAdded := tokensOf (w.bgpNbrSwitch bgpHostname ipHostname)
  if vrouter ∈ alreadyAdded then { cmds := [], flags := [false] }
  else
    let weight : Bool := decide (switch0 ∈ p.leafList) &&
      (tokensOf w.clusterNames).any (fun c => strContains switch0 c)
    { cmds := [.vrouterBgpAdd vrouter ipHostname bgpHostname false p.bfd weight],
      flags := [true] }

/-- The per-vrouter body of the `bgp_neighbor` loop (pn_ebgp_ospf.py
lines 413-486): deduplicate the vrouter's l3-ports (dropping the
vrouter-name token) and process each port. -/
def bgpNbrVrouter (w : World) (p : Params) (vrouter : String) : StepOut :=
  let switch := tokensOf (w.vrouterLocation vrouter)
  let portNum := (pySet (tokensOf (w.l3Ports vrouter))).erase vrouter
  portNum.foldr
    (fun port acc2 => bgpNbrPort w p vrouter (pyIx switch 0) port ++ acc2)
    StepOut.nil

/-- Embedding of `bgp_neighbor` (pn_ebgp_ospf.py lines 399-492). -/
def bgp_neighbor (w : World) (p : Params) : StepOut :=
  let vrouterNames := tokensOf w.vrouterNames
  if vrouterNames.length > 0 then
    vrouterNames.foldr (fun vrouter acc => bgpNbrVrouter w p vrouter ++ acc)
      StepOut.nil
  else { cmds := [], flags := [false] }

/-- Embedding of `assign_router_id` (pn_ebgp_ospf.py lines 495-527):
set each vrouter's router-id to its loopback address. -/
def assign_router_id (w : World) : StepOut :=
  let vrouterNames := tokensOf w.vrouterNames
  if vrouterNames.length > 0 then
    { cmds := vrouterNames.map (fun vrouter =>
        .vrouterModifyRouterId vrouter
          (pyIx ((tokensOf (w.loopbackIp vrouter)).erase vrouter) 0)),
      flags := vrouterNames.map (fun _ => true) }
  else { cmds := [], flags := [false] }

/-- Embedding of `configure_ospf_bfd` (pn_ebgp_ospf.py lines 690-716).
It appends nothing to `CHANGED_FLAG`. -/
def configure_ospf_bfd (w : World) (vrouter ip : String) : List Cmd :=
  let nicIface := (pySet (tokensOf (w.nicByIp vrouter ip))).erase vrouter
  [.ospfBfdModify vrouter (pyIx nicIface 0)]

/-- The four values `ospf_neighbor` derives from an interface address
string `A.B.C.X/m` (pn_ebgp_ospf.py lines 766-779): the static prefix
`A.B.C.`, the last-octet string `X`, its integer value and the netmask
`m`.  `pyInt` yields a `Nat`, so the octet is non-negative exactly as
Python's `int` on the decimal octet text. -/
structure IfaceIp where
  staticPart : String
  lastOctetStr : String
  octet : Nat
  netmask : String
  deriving DecidableEq, Repr

def parseIfaceIp (ip : String) : IfaceIp :=
  let parts := pySplit ip '.'
  let lastOctet := pySplit (pyIx parts 3) '/'
  { staticPart := pyIx parts 0 ++ "." ++ pyIx parts 1 ++ "." ++ pyIx parts 2 ++ ".",
    lastOctetStr := pyIx lastOctet 0,
    octet := pyInt (pyIx lastOctet 0),
    netmask := pyIx lastOctet 1 }

/-- The OSPF network address derived from an interface address
(pn_ebgp_ospf.py lines 772-774): last octet rounded down to a multiple
of 4, netmask kept. -/
def ospfNetworkOf (ip : String) : String :=
  let q := parseIfaceIp ip
  q.staticPart ++ toString (q.octet - q.octet % 4) ++ "/" ++ q.netmask

/-- The per-port body of the `ospf_neighbor` loop (pn_ebgp_ospf.py lines
746-818): derive the OSPF network from the spine-side interface address
and add the spine and leaf vrouters to it unless already present.
`leaf_last_octet = int(...) - 1` may go negative in Python, hence the
`Int` subtraction. -/
def ospfPortStep (w : World) (p : Params) (spine vrouterSpine port : String) : StepOut :=
  let hostname := firstTok (w.portHostname spine port)
  let vrouterHostname := firstTok (w.vrouterAtLocation hostname)
  let ipTokens := (pySet (tokensOf (w.ifaceIpByPort vrouterSpine port))).erase
    vrouterSpine
  let ip := pyIx ipTokens 0
  let q := parseIfaceIp ip
  let ospfNetwork := ospfNetworkOf ip
  let ipLeaf := q.staticPart ++ toString ((q.octet : Int) - 1)
  let ipSpine := q.staticPart ++ q.lastOctetStr
  let alreadyAdded := tokensOf (w.ospfSwitchByNetwork ospfNetwork)
  let spinePart : StepOut :=
    if vrouterSpine ∈ alreadyAdded then { cmds := [], flags := [false] }
    else
      { cmds := (if p.bfd then configure_ospf_bfd w vrouterSpine ipSpine else []) ++
          [.vrouterOspfAdd vrouterSpine ospfNetwork p.ospfAreaId],
        flags := [true] }
  let leafPart : StepOut :=
    if vrouterHostname ∈ alreadyAdded then { cmds := [], flags := [false] }
    else
      { cmds := (if p.bfd then configure_ospf_bfd w vrouterHostname ipLeaf else []) ++
          [.vrouterOspfAdd vrouterHostname ospfNetwork p.ospfAreaId],
        flags := [true] }
  spinePart ++ leafPart

/-- The per-spine body of the `ospf_neighbor` loop (pn_ebgp_ospf.py
lines 733-744): resolve the spine's vrouter, deduplicate its l3-ports
(dropping the vrouter-name token) and process each port. -/
def ospfSpineStep (w : World) (p : Params) (spine : String) : StepOut :=
  let vrouterSpine := firstTok (w.vrouterAtLocation spine)
  let portList := (pySet (tokensOf (w.l3Ports vrouterSpine))).erase vrouterSpine
  portList.foldr
    (fun port acc2 => ospfPortStep w p spine vrouterSpine port ++ acc2)
    StepOut.nil

/-- Embedding of `ospf_neighbor` (pn_ebgp_ospf.py lines 719-824). -/
def ospf_neighbor (w : World) (p : Params) : StepOut :=
  if p.spineList.length > 0 then
    p.spineList.foldr (fun spine acc => ospfSpineStep w p spine ++ acc)
      StepOut.nil
  else { cmds := [], flags := [false] }

/-- Embedding of `ospf_redistribute` (pn_ebgp_ospf.py lines 827-848). -/
def ospf_redistribute (w : World) : StepOut :=
  { cmds := (tokensOf w.vrouterNames).map
      (fun vrouter => .vrouterModifyOspfRedistribute vrouter),
    flags := (tokensOf w.vrouterNames).map (fun _ => true) }

/-! ## pn_ebgp_ospf.py: main -/

/-- The eBGP step sequence of `main` (pn_ebgp_ospf.py lines 879-889). -/
def ebgpSeq (w : World) (p : Params) : StepOut :=
  create_leaf_cluster w p ++
  assigning_bgp_as w p p.bgpAsRange ++
  bgp_redistribute w p.bgpRedistribute ++
  bgp_maxpath w p.bgpMaxpath ++
  bgp_neighbor w p ++
  assign_router_id w ++
  assigning_ibgp_interface w p

/-- The OSPF step sequence of `main` (pn_ebgp_ospf.py lines 890-892). -/
def ospfSeq (w : World) (p : Params) : StepOut :=
  ospf_neighbor w p ++ ospf_redistribute w

/-- The protocol dispatch of `main` (pn_ebgp_ospf.py lines 879-894): the
eBGP sequence on `'ebgp'`, the OSPF sequence on `'ospf'`, and no
configuration step at all otherwise (only the message
`'Please use the correct routing protocol! '` is emitted). -/
def mainSteps (w : World) (p : Params) : StepOut :=
  if p.routingProtocol = "ebgp" then ebgpSeq w p
  else if p.routingProtocol = "ospf" then ospfSeq w p
  else StepOut.nil

/-- The payload of the final `module.exit_json` of pn_ebgp_ospf.py
(lines 896-902). -/
structure ExitPayload where
  error : String
  failed : Bool
  msg : String
  changed : Bool
  deriving DecidableEq, Repr

/-- Embedding of `main` (pn_ebgp_ospf.py lines 851-902) for runs in
which no remote command aborted: the steps that executed and the final
exit payload, whose `changed` field is `True in CHANGED_FLAG`. -/
def mainRun (w : World) (p : Params) : StepOut × ExitPayload :=
  let s := mainSteps w p
  (s, { error := "0", failed := false,
        msg := "eBGP/OSPF setup completed successfully.",
        changed := s.flags.contains true })

/-! ## Concrete worlds used by witnesses and counterexamples -/

/-- A fabric oracle on which every show query prints nothing. -/
def emptyWorld : World where
  vrouterNames := []
  vrouterLocation := fun _ => []
  clusterNames := []
  clusterNamesOn := fun _ => []
  clusterNode1All := []
  clusterNode2All := []
  clusterNode2ByNode1 := fun _ => []
  clusterNode1ByNode2 := fun _ => []
  clusterNode1ByName := fun _ => []
  clusterNode2ByName := fun _ => []
  vlanIds := fun _ => []
  vrouterAtLocation := fun _ => []
  bgpAsOf := fun _ => []
  ifaceSwitchByIpVlan := fun _ _ => []
  bgpNbrSwitch := fun _ _ => []
  lldpSysNames := fun _ => []
  l3Ports := fun _ => []
  portHostname := fun _ _ => []
  portRport := fun _ _ => []
  ifaceIpByPort := fun _ _ => []
  loopbackIp := fun _ => []
  ospfSwitchByNetwork := fun _ => []
  bgpAsAtLocation := fun _ => []
  nicByIp := fun _ _ => []

/-- Default parameters (the documented defaults of pn_ebgp_ospf.py). -/
def defaultParams : Params where
  spineList := []
  leafList := []
  bgpAsRange := "65000"
  bgpRedistribute := "connected"
  bgpMaxpath := "16"
  bfd := false
  ibgpIpRange := "75.75.75.0/30"
  ibgpVlan := "4040"
  ospfAreaId := "0"
  routingProtocol := "ebgp"

/-! ## Claim C8 -/

/-- Claim C8: if the vlag subprocess produces neither stdout nor stderr,
pn_vlag's `main` falls through both `exit_json` branches and returns
without reporting any result payload. -/
theorem c8_vlag_silent_no_payload (p : VlagParams) :
    vlagMain p "" "" = none := by
  simp [vlagMain]

/-! ## Claim C2 -/

/-- Claim C2 is false as stated: `run_cli` returns stdout first, so with
non-empty stdout `x` and non-empty stderr `boom` it reports success and
never aborts; and on the aborting path the stderr is stripped
(`' boom '` becomes `'boom'`), not carried verbatim. -/
theorem c2_counterexample :
    run_cli "cli" "x" "boom" = .ok "x" ∧
    run_cli "cli" "" " boom " =
      .error { error := "1", failed := true, stderr := "boom",
               msg := "Operation Failed: cli", changed := false } := by
  constructor <;> rfl

/-- Claim C2 amended: a non-empty stderr aborts the run with a failure
payload carrying the *stripped* stderr only when stdout is empty; when
stdout is non-empty it is returned as success regardless of stderr, and
pn_vlag's `main` likewise reports stderr only when stdout is empty. -/
theorem c2_amended (q : VlagParams) (cli out err : String) :
    (out = "" → err ≠ "" →
      run_cli cli out err =
        .error { error := "1", failed := true, stderr := pyStrip err,
                 msg := "Operation Failed: " ++ cli, changed := false }) ∧
    (out ≠ "" → run_cli cli out err = .ok out) ∧
    (out = "" → err ≠ "" →
      vlagMain q out err =
        some { vlagcmd := buildVlagCmd q, stdout := none,
               stderr := some (pyRstripCrLf err), changed := false }) ∧
    (out ≠ "" →
      vlagMain q out err =
        some { vlagcmd := buildVlagCmd q, stdout := some (pyRstripCrLf out),
               stderr := none, changed := true }) := by
  refine ⟨?_, ?_, ?_, ?_⟩
  · intro h1 h2; simp [run_cli, h1, h2]
  · intro h1; simp [run_cli, h1]
  · intro h1 h2; simp [vlagMain, h1, h2]
  · intro h1; simp [vlagMain, h1]

/-- Default pn_vlag parameters used by concrete evaluations. -/
def defaultVlagParams : VlagParams where
  cliusername := "admin"
  clipassword := "pw"
  vlagcommand := "vlag-create"
  vlagname := "vlag-1"
  vlaglport := none
  vlagpeerport := none
  vlagmode := none
  vlagpeerswitch := none
  vlagfailover := none
  vlaglacpmode := none
  vlaglacptimeout := none
  vlagfallback := none
  vlagfallbacktimeout := none
  quiet := true

theorem c2_amended_witness :
    run_cli "c" "" "e" =
      .error { error := "1", failed := true, stderr := pyStrip "e",
               msg := "Operation Failed: " ++ "c", changed := false } ∧
    run_cli "c" "x" "e" = .ok "x" ∧
    vlagMain defaultVlagParams "" "e" =
      some { vlagcmd := buildVlagCmd defaultVlagParams, stdout := none,
             stderr := some (pyRstripCrLf "e"), changed := false } ∧
    vlagMain defaultVlagParams "x" "e" =
      some { vlagcmd := buildVlagCmd defaultVlagParams,
             stdout := some (pyRstripCrLf "x"), stderr := none,
             changed := true } := by
  have h := c2_amended defaultVlagParams "c" "" "e"
  have h2 := c2_amended defaultVlagParams "c" "x" "e"
  exact ⟨h.1 rfl (by decide), h2.2.1 (by decide),
    (c2_amended defaultVlagParams "c" "" "e").2.2.1 rfl (by decide),
    (c2_amended defaultVlagParams "c" "x" "e").2.2.2 (by decide)⟩

/-! ## Claim C10 -/

/-- Claim C10: whenever pn_ebgp_ospf's `main` reaches its final
`exit_json`, the payload always has `failed=False`, `error='0'` and the
success message, and with a routing protocol that is neither `ebgp` nor
`ospf` no configuration step runs and `changed` is false. -/
theorem c10_final_exit (w : World) (p : Params) :
    (mainRun w p).2.failed = false ∧
    (mainRun w p).2.error = "0" ∧
    (mainRun w p).2.msg = "eBGP/OSPF setup completed successfully." ∧
    (p.routingProtocol ≠ "ebgp" → p.routingProtocol ≠ "ospf" →
      (mainRun w p).1 = StepOut.nil ∧ (mainRun w p).2.changed = false) := by
  refine ⟨rfl, rfl, rfl, ?_⟩
  intro h1 h2
  simp [mainRun, mainSteps, h1, h2, StepOut.nil]

/-- Parameters selecting an unknown routing protocol. -/
def invalidProtoParams : Params :=
  { defaultParams with routingProtocol := "rip" }

theorem c10_final_exit_witness :
    (mainRun emptyWorld invalidProtoParams).1 = StepOut.nil ∧
    (mainRun emptyWorld invalidProtoParams).2.changed = false :=
  (c10_final_exit emptyWorld invalidProtoParams).2.2.2 (by decide) (by decide)

/-! ## Claim C1 -/

/-- A fabric on which node leaf1 already has a cluster named c1, the
iBGP vlan 4040 already exists on leaf1, and leaf1's vrouter interface
and iBGP neighbor are already configured. -/
def alreadyConfiguredWorld : World :=
  { emptyWorld with
    clusterNamesOn := fun n1 => if n1 = "leaf1" then ["c1"] else []
    vlanIds := fun s => if s = "leaf1" then ["4040"] else []
    vrouterAtLocation := fun s => if s = "leaf1" then ["leaf1-vrouter"] else []
    bgpAsOf := fun v => if v = "leaf1-vrouter" then ["65001"] else []
    ifaceSwitchByIpVlan := fun _ _ => ["leaf1-vrouter"]
    bgpNbrSwitch := fun _ _ => ["leaf1-vrouter"] }

/-- Claim C1 fails on `create_cluster`: on a fabric where the cluster
already exists, the already-exists branch issues no command but appends
`True` to `CHANGED_FLAG` (pn_ebgp_ospf.py line 626), so the step reports
a change; by contrast `vrouter_interface_ibgp_add` on a fully
already-configured fabric issues no command and appends
`False, False, False` exactly as the claim describes. -/
theorem c1_create_cluster_bug :
    (create_cluster alreadyConfiguredWorld "leaf2" "c1" "leaf1" "leaf2").cmds
      = [] ∧
    (create_cluster alreadyConfiguredWorld "leaf2" "c1" "leaf1" "leaf2").flags
      = [true] ∧
    (vrouter_interface_ibgp_add alreadyConfiguredWorld defaultParams
        "leaf1" "75.75.75.1/30" "75.75.75.2/30").cmds = [] ∧
    (vrouter_interface_ibgp_add alreadyConfiguredWorld defaultParams
        "leaf1" "75.75.75.1/30" "75.75.75.2/30").flags
      = [false, false, false] := by
  refine ⟨rfl, rfl, ?_, ?_⟩ <;> rfl

/-! ## Claim C9 -/

theorem spaceLedChunk {pre : String} {t : List Char} (x : String)
    (h : pre.data = ' ' :: t) :
    (pre ++ x).data = [] ∨ ∃ t', (pre ++ x).data = ' ' :: t' :=
  Or.inr ⟨t ++ x.data, by simp [h]⟩

theorem hasWordChunk_append {s pre w v : String}
    (hpre : pre.data = ' ' :: w.data) :
    HasWordChunk (s ++ (pre ++ v)) (w ++ v) :=
  ⟨s.data, [], by simp [hpre], Or.inl rfl⟩

/-- Claim C9: when pn_vlagpeerswitch is provided, the assembled command
string contains `peer-switch` concatenated directly with the value with
no separating space, and when pn_vlaglacptimeout is provided it contains
`lacp-timeout` concatenated directly with the value; consequently, after
whitespace splitting (shlex on these quote-free strings), the flag and
its value form a single argv token. -/
theorem c9_flag_value_single_token (p : VlagParams) :
    (∀ v, p.vlagpeerswitch = some v → v ≠ "" → ' ' ∉ v.data →
      (∃ A B, (buildVlagCmd p).data =
          A ++ ' ' :: ("peer-switch" ++ v).data ++ B) ∧
      ("peer-switch" ++ v) ∈ shlexTokens (buildVlagCmd p)) ∧
    (∀ v, p.vlaglacptimeout = some v → v ≠ "" → ' ' ∉ v.data →
      (∃ A B, (buildVlagCmd p).data =
          A ++ ' ' :: ("lacp-timeout" ++ v).data ++ B) ∧
      ("lacp-timeout" ++ v) ∈ shlexTokens (buildVlagCmd p)) := by
  constructor
  · intro v hv hvne hvsp
    have hch : HasWordChunk (buildVlagCmd p) ("peer-switch" ++ v) := by
      simp only [buildVlagCmd]
      refine HasWordChunk.extendIf ?_ _ _ (spaceLedChunk _ rfl)
      refine HasWordChunk.extendIf ?_ _ _ (spaceLedChunk _ rfl)
      refine HasWordChunk.extendIf ?_ _ _ (spaceLedChunk _ rfl)
      refine HasWordChunk.extendIf ?_ _ _ (spaceLedChunk _ rfl)
      refine HasWordChunk.extendIf ?_ _ _ (spaceLedChunk _ rfl)
      rw [hv]
      have ht : truthy (some v) = true := by simp [truthy]; exact hvne
      rw [ht]
      have ho : optStr (some v) = v := rfl
      rw [ho, show ∀ s c, appendIf true s c = s ++ c from fun s c => rfl]
      exact hasWordChunk_append rfl
    refine ⟨?_, ?_⟩
    · obtain ⟨A, B, h, _⟩ := hch
      exact ⟨A, B, h⟩
    · refine hch.token ?_ ?_
      · simp
      · simp only [String.data_append, List.mem_append]
        rintro (h | h)
        · revert h; decide
        · exact hvsp h
  · intro v hv hvne hvsp
    have hch : HasWordChunk (buildVlagCmd p) ("lacp-timeout" ++ v) := by
      simp only [buildVlagCmd]
      refine HasWordChunk.extendIf ?_ _ _ (spaceLedChunk _ rfl)
      refine HasWordChunk.extendIf ?_ _ _ (spaceLedChunk _ rfl)
      rw [hv]
      have ht : truthy (some v) = true := by simp [truthy]; exact hvne
      rw [ht]
      have ho : optStr (some v) = v := rfl
      rw [ho, show ∀ s c, appendIf true s c = s ++ c from fun s c => rfl]
      exact hasWordChunk_append rfl
    refine ⟨?_, ?_⟩
    · obtain ⟨A, B, h, _⟩ := hch
      exact ⟨A, B, h⟩
    · refine hch.token ?_ ?_
      · simp
      · simp only [String.data_append, List.mem_append]
        rintro (h | h)
        · revert h; decide
        · exact hvsp h

/-- Parameters with both optional flags of claim C9 provided. -/
def c9Params : VlagParams :=
  { defaultVlagParams with vlagpeerswitch := some "sw2", vlaglacptimeout := some "fast" }

theorem c9_flag_value_single_token_witness :
    ("peer-switch" ++ "sw2") ∈ shlexTokens (buildVlagCmd c9Params) ∧
    ("lacp-timeout" ++ "fast") ∈ shlexTokens (buildVlagCmd c9Params) :=
  ⟨((c9_flag_value_single_token c9Params).1 "sw2" rfl (by decide) (by decide)).2,
   ((c9_flag_value_single_token c9Params).2 "fast" rfl (by decide) (by decide)).2⟩

/-! ## Claim C5 -/

theorem pySplitAux_no_sep (sep : Char) :
    ∀ xs acc, sep ∉ xs → pySplitAux sep xs acc = [acc.reverse ++ xs] := by
  intro xs
  induction xs with
  | nil => intro acc _; simp [pySplitAux]
  | cons c cs ih =>
    intro acc hn
    have hc : c ≠ sep := fun hh => hn (hh ▸ List.mem_cons_self c cs)
    have hcs : sep ∉ cs := fun hh => hn (List.mem_cons_of_mem _ hh)
    rw [show pySplitAux sep (c :: cs) acc = pySplitAux sep cs (c :: acc) from by
      simp [pySplitAux, hc]]
    rw [ih (c :: acc) hcs]
    simp

theorem pySplitAux_append_sep (sep : Char) (ys : List Char) :
    ∀ xs acc, sep ∉ xs →
      pySplitAux sep (xs ++ sep :: ys) acc =
        (acc.reverse ++ xs) :: pySplitAux sep ys [] := by
  intro xs
  induction xs with
  | nil => intro acc _; simp [pySplitAux]
  | cons c cs ih =>
    intro acc hn
    have hc : c ≠ sep := fun hh => hn (hh ▸ List.mem_cons_self c cs)
    have hcs : sep ∉ cs := fun hh => hn (List.mem_cons_of_mem _ hh)
    rw [show (c :: cs) ++ sep :: ys = c :: (cs ++ sep :: ys) from rfl]
    rw [show pySplitAux sep (c :: (cs ++ sep :: ys)) acc =
      pySplitAux sep (cs ++ sep :: ys) (c :: acc) from by simp [pySplitAux, hc]]
    rw [ih (c :: acc) hcs]
    simp

/-- `pySplit` on a two-field string whose fields are separator-free. -/
theorem pySplit_pair (sep : Char) (sepStr : String) {D m : String}
    (hsep : sepStr.data = [sep])
    (hD : sep ∉ D.data) (hm : sep ∉ m.data) :
    pySplit (D ++ sepStr ++ m) sep = [D, m] := by
  unfold pySplit
  have h : (D ++ sepStr ++ m).data = D.data ++ sep :: m.data := by
    simp [hsep]
  rw [h, pySplitAux_append_sep sep m.data D.data [] hD,
    pySplitAux_no_sep sep m.data [] hm]
  simp

/-- `pySplit` on a dotted quad whose fields are dot-free. -/
theorem pySplit_quad {A B C R : String}
    (hA : '.' ∉ A.data) (hB : '.' ∉ B.data) (hC : '.' ∉ C.data)
    (hR : '.' ∉ R.data) :
    pySplit (A ++ "." ++ B ++ "." ++ C ++ "." ++ R) '.' = [A, B, C, R] := by
  unfold pySplit
  have h : (A ++ "." ++ B ++ "." ++ C ++ "." ++ R).data =
      A.data ++ '.' :: (B.data ++ '.' :: (C.data ++ '.' :: R.data)) := by
    simp
  rw [h, pySplitAux_append_sep '.' _ A.data [] hA,
    pySplitAux_append_sep '.' _ B.data [] hB,
    pySplitAux_append_sep '.' _ C.data [] hC,
    pySplitAux_no_sep '.' R.data [] hR]
  simp

/-- On a well-formed interface address `A.B.C.D/m`, the derived OSPF
network keeps the prefix and netmask and rounds the last octet down to a
multiple of 4. -/
theorem ospfNetworkOf_format {A B C D m : String} {X : Nat}
    (hA : '.' ∉ A.data) (hB : '.' ∉ B.data) (hC : '.' ∉ C.data)
    (hD : '.' ∉ D.data) (hDs : '/' ∉ D.data)
    (hm : '.' ∉ m.data) (hms : '/' ∉ m.data)
    (hX : pyInt D = X) :
    ospfNetworkOf (A ++ "." ++ B ++ "." ++ C ++ "." ++ (D ++ "/" ++ m)) =
      A ++ "." ++ B ++ "." ++ C ++ "." ++ (toString (X - X % 4) ++ "/" ++ m) := by
  have hR : '.' ∉ (D ++ "/" ++ m).data := by
    simp only [String.data_append, List.mem_append]
    rintro ((h | h) | h)
    · exact hD h
    · revert h; decide
    · exact hm h
  simp only [ospfNetworkOf, parseIfaceIp]
  rw [pySplit_quad hA hB hC hR]
  rw [show pyIx [A, B, C, D ++ "/" ++ m] 3 = D ++ "/" ++ m from rfl]
  rw [pySplit_pair '/' "/" rfl hDs hms]
  rw [show pyIx [A, B, C, D ++ "/" ++ m] 0 = A from rfl,
    show pyIx [A, B, C, D ++ "/" ++ m] 1 = B from rfl,
    show pyIx [A, B, C, D ++ "/" ++ m] 2 = C from rfl,
    show pyIx [D, m] 0 = D from rfl,
    show pyIx [D, m] 1 = m from rfl]
  rw [hX]
  apply String.ext
  simp

theorem mem_cmds_foldr {α : Type} (f : α → StepOut) (l : List α) (c : Cmd) :
    c ∈ (l.foldr (fun a acc => f a ++ acc) StepOut.nil).cmds ↔
      ∃ a ∈ l, c ∈ (f a).cmds := by
  induction l with
  | nil => simp [StepOut.nil]
  | cons x xs ih => simp [StepOut.append_cmds, ih]

/-- Every `vrouter-ospf-add` issued by one port step carries the
configured area id and an OSPF-derived network address. -/
theorem ospfPortStep_area (w : World) (p : Params)
    (spine vrouterSpine port : String) (v net ar : String)
    (h : Cmd.vrouterOspfAdd v net ar ∈
      (ospfPortStep w p spine vrouterSpine port).cmds) :
    ar = p.ospfAreaId ∧ ∃ ip, net = ospfNetworkOf ip := by
  unfold ospfPortStep at h
  simp only [StepOut.append_cmds, List.mem_append] at h
  rcases h with h | h <;>
  · split at h
    · simp at h
    · rcases List.mem_append.1 h with h | h
      · split at h
        · simp [configure_ospf_bfd] at h
        · simp at h
      · simp only [List.mem_singleton, Cmd.vrouterOspfAdd.injEq] at h
        exact ⟨h.2.2, ⟨_, h.2.1⟩⟩

/-- Claim C5: every `vrouter-ospf-add` command issued by `ospf_neighbor`
carries the configured `pn_ospf_area_id` as its ospf-area, and a network
address produced by the OSPF derivation; on a well-formed interface
address `A.B.C.X/m` that derivation replaces the last octet `X` by
`X - X mod 4` and keeps netmask `m`. -/
theorem c5_ospf_network_area (w : World) (p : Params) :
    (∀ v net ar, Cmd.vrouterOspfAdd v net ar ∈ (ospf_neighbor w p).cmds →
      ar = p.ospfAreaId ∧ ∃ ip, net = ospfNetworkOf ip) ∧
    (∀ A B C D m : String, ∀ X : Nat,
      '.' ∉ A.data → '.' ∉ B.data → '.' ∉ C.data →
      '.' ∉ D.data → '/' ∉ D.data → '.' ∉ m.data → '/' ∉ m.data →
      pyInt D = X →
      ospfNetworkOf (A ++ "." ++ B ++ "." ++ C ++ "." ++ (D ++ "/" ++ m)) =
        A ++ "." ++ B ++ "." ++ C ++ "." ++ (toString (X - X % 4) ++ "/" ++ m)) := by
  constructor
  · intro v net ar h
    unfold ospf_neighbor at h
    split at h
    · rw [mem_cmds_foldr (fun spine => ospfSpineStep w p spine)] at h
      obtain ⟨spine, _, h⟩ := h
      simp only [ospfSpineStep] at h
      rw [mem_cmds_foldr (fun port => ospfPortStep w p spine
        (firstTok (w.vrouterAtLocation spine)) port)] at h
      obtain ⟨port, _, h⟩ := h
      exact ospfPortStep_area w p spine _ port v net ar h
    · simp at h
  · intro A B C D m X hA hB hC hD hDs hm hms hX
    exact ospfNetworkOf_format hA hB hC hD hDs hm hms hX

/-- A one-spine fabric with one level-3 port facing leaf9, whose
interface address is 10.0.0.14/30. -/
def ospfWorld : World :=
  { emptyWorld with
    vrouterAtLocation := fun s =>
      if s = "s1" then ["s1-vrouter"]
      else if s = "leaf9" then ["leaf9-vrouter"] else []
    l3Ports := fun v => if v = "s1-vrouter" then ["s1-vrouter", "17"] else []
    portHostname := fun s port => if s = "s1" ∧ port = "17" then ["leaf9"] else []
    ifaceIpByPort := fun v port =>
      if v = "s1-vrouter" ∧ port = "17" then ["s1-vrouter", "10.0.0.14/30"]
      else [] }

/-- Parameters selecting OSPF with area id 7 on spine s1. -/
def ospfParams : Params :=
  { defaultParams with
      spineList := ["s1"]
      ospfAreaId := "7"
      routingProtocol := "ospf" }

theorem c5_ospf_network_area_witness :
    (Cmd.vrouterOspfAdd "s1-vrouter" "10.0.0.12/30" "7" ∈
      (ospf_neighbor ospfWorld ospfParams).cmds) ∧
    ("7" = ospfParams.ospfAreaId ∧
      ∃ ip, "10.0.0.12/30" = ospfNetworkOf ip) ∧
    ospfNetworkOf ("10" ++ "." ++ "0" ++ "." ++ "0" ++ "." ++ ("14" ++ "/" ++ "30")) =
      "10" ++ "." ++ "0" ++ "." ++ "0" ++ "." ++ (toString (14 - 14 % 4) ++ "/" ++ "30") :=
  ⟨by decide,
   (c5_ospf_network_area ospfWorld ospfParams).1 "s1-vrouter" "10.0.0.12/30" "7"
     (by decide),
   (c5_ospf_network_area ospfWorld ospfParams).2 "10" "0" "0" "14" "30" 14
     (by decide) (by decide) (by decide) (by decide) (by decide) (by decide)
     (by decide) (by decide)⟩

/-! ## Claim C4 -/

/-- The clusters `assigning_ibgp_interface` actually allocates for: those
whose cluster-node-1 is a leaf and not a spine (pn_ebgp_ospf.py line
377), in cluster-list order. -/
def ibgpQualifying (w : World) (p : Params) : List String :=
  (tokensOf w.clusterNames).filter (fun c =>
    decide (firstTok (w.clusterNode1ByName c) ∉ p.spineList ∧
      firstTok (w.clusterNode1ByName c) ∈ p.leafList))

theorem ibgpAlloc_spec (w : World) (p : Params) (sp : String) :
    ∀ l n,
      (ibgpAlloc w p sp l n).length =
        (l.filter (fun c =>
          decide (firstTok (w.clusterNode1ByName c) ∉ p.spineList ∧
            firstTok (w.clusterNode1ByName c) ∈ p.leafList))).length ∧
      ∀ k, k < (l.filter (fun c =>
          decide (firstTok (w.clusterNode1ByName c) ∉ p.spineList ∧
            firstTok (w.clusterNode1ByName c) ∈ p.leafList))).length →
        (ibgpAlloc w p sp l n).getD k ("", "", "", "") =
          (let c := (l.filter (fun c =>
            decide (firstTok (w.clusterNode1ByName c) ∉ p.spineList ∧
              firstTok (w.clusterNode1ByName c) ∈ p.leafList))).getD k ""
           (firstTok (w.clusterNode1ByName c),
            firstTok (w.clusterNode2ByName c),
            sp ++ toString (4 * (n + k) + 1) ++ "/" ++ toString 30,
            sp ++ toString (4 * (n + k) + 2) ++ "/" ++ toString 30)) := by
  intro l
  induction l with
  | nil => intro n; simp [ibgpAlloc]
  | cons c rest ih =>
    intro n
    by_cases hc : firstTok (w.clusterNode1ByName c) ∉ p.spineList ∧
        firstTok (w.clusterNode1ByName c) ∈ p.leafList
    · have halloc : ibgpAlloc w p sp (c :: rest) n =
          (firstTok (w.clusterNode1ByName c), firstTok (w.clusterNode2ByName c),
           sp ++ toString (n * 4 + 1) ++ "/" ++ toString 30,
           sp ++ toString (n * 4 + 2) ++ "/" ++ toString 30) ::
          ibgpAlloc w p sp rest (n + 1) := by
        simp [ibgpAlloc, hc]
      have hfilter : (c :: rest).filter (fun c =>
          decide (firstTok (w.clusterNode1ByName c) ∉ p.spineList ∧
            firstTok (w.clusterNode1ByName c) ∈ p.leafList)) =
          c :: rest.filter (fun c =>
          decide (firstTok (w.clusterNode1ByName c) ∉ p.spineList ∧
            firstTok (w.clusterNode1ByName c) ∈ p.leafList)) := by
        simp [List.filter_cons, hc]
      rw [halloc, hfilter]
      refine ⟨by simp [(ih (n + 1)).1], ?_⟩
      intro k hk
      match k with
      | 0 =>
        simp only [List.getD_cons_zero]
        have h1 : n * 4 + 1 = 4 * (n + 0) + 1 := by ring
        have h2 : n * 4 + 2 = 4 * (n + 0) + 2 := by ring
        rw [h1, h2]
      | k + 1 =>
        simp only [List.getD_cons_succ]
        have hk' : k < (rest.filter (fun c =>
          decide (firstTok (w.clusterNode1ByName c) ∉ p.spineList ∧
            firstTok (w.clusterNode1ByName c) ∈ p.leafList))).length := by
          simpa using Nat.lt_of_succ_lt_succ (by simpa using hk)
        have := (ih (n + 1)).2 k hk'
        rw [this]
        have h1 : 4 * (n + 1 + k) + 1 = 4 * (n + (k + 1)) + 1 := by ring
        have h2 : 4 * (n + 1 + k) + 2 = 4 * (n + (k + 1)) + 2 := by ring
        rw [h1, h2]
    · have halloc : ibgpAlloc w p sp (c :: rest) n = ibgpAlloc w p sp rest n := by
        simp [ibgpAlloc, hc]
      have hfilter : (c :: rest).filter (fun c =>
          decide (firstTok (w.clusterNode1ByName c) ∉ p.spineList ∧
            firstTok (w.clusterNode1ByName c) ∈ p.leafList)) =
          rest.filter (fun c =>
          decide (firstTok (w.clusterNode1ByName c) ∉ p.spineList ∧
            firstTok (w.clusterNode1ByName c) ∈ p.leafList)) := by
        simp [List.filter_cons, hc]
      rw [halloc, hfilter]
      exact ih n

/-- Claim C4: with static prefix `P = ibgpStaticPart pn_ibgp_ip_range`,
the k-th qualifying leaf cluster (in discovery order) is allocated the
interface addresses `P(4k+1)/30` for node-1 and `P(4k+2)/30` for node-2,
and the blocks of four last-octet values `[4k, 4k+4)` consumed by
distinct clusters are disjoint. -/
theorem c4_ibgp_disjoint_blocks (w : World) (p : Params) :
    (ibgpAlloc w p (ibgpStaticPart p.ibgpIpRange) (tokensOf w.clusterNames) 0).length
        = (ibgpQualifying w p).length ∧
    (∀ k, k < (ibgpQualifying w p).length →
      (ibgpAlloc w p (ibgpStaticPart p.ibgpIpRange) (tokensOf w.clusterNames) 0).getD
          k ("", "", "", "") =
        (firstTok (w.clusterNode1ByName ((ibgpQualifying w p).getD k "")),
         firstTok (w.clusterNode2ByName ((ibgpQualifying w p).getD k "")),
         ibgpStaticPart p.ibgpIpRange ++ toString (4 * k + 1) ++ "/" ++ toString 30,
         ibgpStaticPart p.ibgpIpRange ++ toString (4 * k + 2) ++ "/" ++ toString 30)) ∧
    (∀ j k x : Nat, j ≠ k →
      ¬ ((4 * j ≤ x ∧ x < 4 * j + 4) ∧ (4 * k ≤ x ∧ x < 4 * k + 4))) := by
  obtain ⟨h1, h2⟩ := ibgpAlloc_spec w p (ibgpStaticPart p.ibgpIpRange)
    (tokensOf w.clusterNames) 0
  refine ⟨h1, ?_, ?_⟩
  · intro k hk
    have := h2 k hk
    rw [this]
    simp only [ibgpQualifying]
    have h3 : 4 * (0 + k) + 1 = 4 * k + 1 := by ring
    have h4 : 4 * (0 + k) + 2 = 4 * k + 2 := by ring
    rw [h3, h4]
  · intro j k x hjk h
    omega

/-- A fabric with two leaf clusters cA = (l1,l2) and cB = (l3,l4). -/
def ibgpWorld : World :=
  { emptyWorld with
    clusterNames := ["cA", "cB"]
    clusterNode1ByName := fun c =>
      if c = "cA" then ["l1"] else if c = "cB" then ["l3"] else []
    clusterNode2ByName := fun c =>
      if c = "cA" then ["l2"] else if c = "cB" then ["l4"] else [] }

/-- Parameters whose leaf list contains the four clustered leaves. -/
def ibgpParams : Params :=
  { defaultParams with leafList := ["l1", "l2", "l3", "l4"] }

theorem c4_ibgp_disjoint_blocks_witness :
    1 < (ibgpQualifying ibgpWorld ibgpParams).length ∧
    (ibgpAlloc ibgpWorld ibgpParams (ibgpStaticPart ibgpParams.ibgpIpRange)
        (tokensOf ibgpWorld.clusterNames) 0).getD 1 ("", "", "", "") =
      ("l3", "l4", "75.75.75.5/30", "75.75.75.6/30") := by
  refine ⟨by decide, ?_⟩
  have h := (c4_ibgp_disjoint_blocks ibgpWorld ibgpParams).2.1 1 (by decide)
  rw [h]
  decide

/-! ## Claim C6 -/

/-- Claim C6 is false as stated: with the unknown routing protocol
`rip`, `main` dispatches *neither* the eBGP sequence nor the OSPF
sequence (its step output differs from both and is empty), rather than
exactly one of them. -/
theorem c6_counterexample :
    (mainRun emptyWorld invalidProtoParams).1.cmds = [] ∧
    (mainRun emptyWorld invalidProtoParams).1.flags = [] ∧
    (mainRun emptyWorld invalidProtoParams).1 ≠
      ebgpSeq emptyWorld invalidProtoParams ∧
    (mainRun emptyWorld invalidProtoParams).1 ≠
      ospfSeq emptyWorld invalidProtoParams := by
  refine ⟨rfl, rfl, ?_, ?_⟩ <;> decide

/-- Claim C6 amended: `main` dispatches at most one of the two
sequences, the eBGP sequence exactly when the selector is `ebgp` and the
OSPF sequence exactly when it is `ospf` (and neither otherwise), and the
exit payload's `changed` field is true iff at least one invoked step
appended `true` to the `CHANGED_FLAG` accumulation. -/
theorem c6_dispatch_changed (w : World) (p : Params) :
    (p.routingProtocol = "ebgp" → mainSteps w p = ebgpSeq w p) ∧
    (p.routingProtocol = "ospf" → mainSteps w p = ospfSeq w p) ∧
    (p.routingProtocol ≠ "ebgp" → p.routingProtocol ≠ "ospf" →
      mainSteps w p = StepOut.nil) ∧
    ((mainRun w p).2.changed = true ↔
      ∃ b ∈ (mainRun w p).1.flags, b = true) := by
  refine ⟨?_, ?_, ?_, ?_⟩
  · intro h; simp [mainSteps, h]
  · intro h; simp [mainSteps, h]
  · intro h1 h2; simp [mainSteps, h1, h2]
  · show (mainSteps w p).flags.contains true = true ↔ _
    rw [List.contains_iff_exists_mem_beq]
    constructor
    · rintro ⟨b, hb, hbeq⟩
      exact ⟨b, hb, by simpa using (beq_iff_eq.1 hbeq).symm⟩
    · rintro ⟨b, hb, rfl⟩
      exact ⟨true, hb, by simp⟩

theorem c6_dispatch_changed_witness :
    mainSteps emptyWorld ospfParams = ospfSeq emptyWorld ospfParams ∧
    ((mainRun emptyWorld ospfParams).2.changed = true ↔
      ∃ b ∈ (mainRun emptyWorld ospfParams).1.flags, b = true) :=
  ⟨(c6_dispatch_changed emptyWorld ospfParams).2.1 rfl,
   (c6_dispatch_changed emptyWorld ospfParams).2.2.2⟩

/-! ## Claim C7 -/

/-- The `(node1, node2)` pairs of the cluster-create commands among a
command list. -/
def createdPairs (cmds : List Cmd) : List (String × String) :=
  cmds.filterMap (fun c => match c with
    | .clusterCreate _ _ n1 n2 => some (n1, n2)
    | _ => none)

/-- The inner candidate scan either leaves the unclustered set untouched
and creates nothing, or picks one LLDP candidate `sw` that is not a
spine and is still unclustered, removes exactly it, and creates at most
the one cluster `(node1, sw)`. -/
theorem lcfInner_spec (w : World) (p : Params) (node1 : String) :
    ∀ names rest,
      ((lcfInner w p node1 names rest).2 = rest ∧
        createdPairs (lcfInner w p node1 names rest).1.cmds = []) ∨
      ∃ sw, sw ∈ names ∧ sw ∉ p.spineList ∧ sw ∈ rest ∧
        (lcfInner w p node1 names rest).2 = rest.erase sw ∧
        (createdPairs (lcfInner w p node1 names rest).1.cmds = [] ∨
          createdPairs (lcfInner w p node1 names rest).1.cmds = [(node1, sw)]) := by
  intro names
  induction names with
  | nil => intro rest; left; exact ⟨rfl, rfl⟩
  | cons sw more ih =>
    intro rest
    by_cases h1 : sw ∉ p.spineList
    · by_cases h2 : sw ∈ rest
      · right
        refine ⟨sw, List.mem_cons_self sw more, h1, h2, ?_, ?_⟩
        · simp only [lcfInner, if_pos h1, if_pos h2]
        · simp only [lcfInner, if_pos h1, if_pos h2]
          simp only [create_cluster]
          by_cases hcl :
              (node1 ++ "-to-" ++ sw ++ "-cluster") ∉ tokensOf (w.clusterNamesOn node1)
          · right; rw [if_pos hcl]; rfl
          · left; rw [if_neg hcl]; rfl
      · have heq : lcfInner w p node1 (sw :: more) rest =
            ({ cmds := (lcfInner w p node1 more rest).1.cmds,
               flags := false :: (lcfInner w p node1 more rest).1.flags },
             (lcfInner w p node1 more rest).2) := by
          simp only [lcfInner, if_pos h1, if_neg h2]
        rcases ih rest with ⟨ha, hb⟩ | ⟨sw', hm, hs, hr, he, hc⟩
        · left
          rw [heq]
          exact ⟨ha, hb⟩
        · right
          refine ⟨sw', List.mem_cons_of_mem sw hm, hs, hr, ?_, ?_⟩
          · rw [heq]; exact he
          · rw [heq]; exact hc
    · have heq : lcfInner w p node1 (sw :: more) rest =
          lcfInner w p node1 more rest := by
        simp only [lcfInner, if_neg h1]
      rcases ih rest with ⟨ha, hb⟩ | ⟨sw', hm, hs, hr, he, hc⟩
      · left; rw [heq]; exact ⟨ha, hb⟩
      · right; exact ⟨sw', List.mem_cons_of_mem sw hm, hs, hr,
          by rw [heq]; exact he, by rw [heq]; exact hc⟩

/-- Invariant of the outer pairing loop: every created cluster pairs two
distinct members of the current unclustered set, the partner is a
non-spine LLDP neighbor of the first member, and no leaf ends up in two
created clusters. -/
theorem lcfLoop_spec (w : World) (p : Params) :
    ∀ fuel l, l.Nodup →
      (∀ q ∈ createdPairs (lcfLoop w p fuel l).cmds,
        q.1 ∈ l ∧ q.2 ∈ l ∧ q.2 ∉ p.spineList ∧
          q.2 ∈ tokensOf (w.lldpSysNames q.1)) ∧
      ((createdPairs (lcfLoop w p fuel l).cmds).flatMap
        (fun q => [q.1, q.2])).Nodup := by
  intro fuel
  induction fuel with
  | zero => intro l _; simp [lcfLoop, StepOut.nil, createdPairs]
  | succ fuel ih =>
    intro l hnd
    match l with
    | [] => simp [lcfLoop, StepOut.nil, createdPairs]
    | node1 :: rest =>
      have hloop : lcfLoop w p (fuel + 1) (node1 :: rest) =
          (lcfInner w p node1 (pySet (tokensOf (w.lldpSysNames node1))) rest).1 ++
          lcfLoop w p fuel
            (lcfInner w p node1 (pySet (tokensOf (w.lldpSysNames node1))) rest).2 := by
        simp only [lcfLoop]
      have hpairs : createdPairs (lcfLoop w p (fuel + 1) (node1 :: rest)).cmds =
          createdPairs
            (lcfInner w p node1 (pySet (tokensOf (w.lldpSysNames node1))) rest).1.cmds ++
          createdPairs (lcfLoop w p fuel
            (lcfInner w p node1 (pySet (tokensOf (w.lldpSysNames node1))) rest).2).cmds := by
        rw [hloop, StepOut.append_cmds]
        exact List.filterMap_append _ _ _
      rcases lcfInner_spec w p node1 (pySet (tokensOf (w.lldpSysNames node1))) rest with
        ⟨hrest, hnil⟩ | ⟨sw, hmem, hsp, hin, hrest, hcreated⟩
      · rw [hpairs, hrest, hnil, List.nil_append]
        obtain ⟨ihA, ihB⟩ := ih rest (List.Nodup.of_cons hnd)
        refine ⟨?_, ihB⟩
        intro q hq
        obtain ⟨hq1, hq2, hq3, hq4⟩ := ihA q hq
        exact ⟨List.mem_cons_of_mem _ hq1, List.mem_cons_of_mem _ hq2, hq3, hq4⟩
      · have hndE : (rest.erase sw).Nodup := (List.Nodup.of_cons hnd).erase sw
        obtain ⟨ihA, ihB⟩ := ih (rest.erase sw) hndE
        have hsubE : ∀ x, x ∈ rest.erase sw → x ∈ node1 :: rest := fun x hx =>
          List.mem_cons_of_mem _ (List.mem_of_mem_erase hx)
        have hnode1_rest : node1 ∉ rest := (List.nodup_cons.1 hnd).1
        have hswlldp : sw ∈ tokensOf (w.lldpSysNames node1) :=
          List.dedup_subset _ hmem
        rcases hcreated with hc | hc
        · rw [hpairs, hrest, hc, List.nil_append]
          refine ⟨?_, ihB⟩
          intro q hq
          obtain ⟨hq1, hq2, hq3, hq4⟩ := ihA q hq
          exact ⟨hsubE _ hq1, hsubE _ hq2, hq3, hq4⟩
        · rw [hpairs, hrest, hc]
          constructor
          · intro q hq
            rcases List.mem_append.1 hq with hq | hq
            · rw [List.mem_singleton] at hq
              subst hq
              exact ⟨List.mem_cons_self _ _, List.mem_cons_of_mem _ hin,
                hsp, hswlldp⟩
            · obtain ⟨hq1, hq2, hq3, hq4⟩ := ihA q hq
              exact ⟨hsubE _ hq1, hsubE _ hq2, hq3, hq4⟩
          · rw [List.flatMap_append]
            have hmemsub : ∀ x,
                x ∈ (createdPairs (lcfLoop w p fuel (rest.erase sw)).cmds).flatMap
                  (fun q => [q.1, q.2]) → x ∈ rest.erase sw := by
              intro x hx
              rw [List.mem_flatMap] at hx
              obtain ⟨q, hq, hxq⟩ := hx
              obtain ⟨hq1, hq2, _, _⟩ := ihA q hq
              rcases List.mem_cons.1 hxq with h | h
              · exact h ▸ hq1
              · rw [List.mem_singleton] at h
                exact h ▸ hq2
            have hne : node1 ≠ sw := fun h => hnode1_rest (h ▸ hin)
            have hnode1notE : node1 ∉ rest.erase sw := fun h =>
              hnode1_rest (List.mem_of_mem_erase h)
            have hswnotE : sw ∉ rest.erase sw := fun h =>
              ((List.Nodup.mem_erase_iff (List.Nodup.of_cons hnd)).1 h).1 rfl
            simp only [List.flatMap_cons, List.flatMap_nil, List.append_nil]
            refine List.nodup_cons.2 ⟨?_, List.nodup_cons.2 ⟨?_, ihB⟩⟩
            · intro h
              rcases List.mem_cons.1 h with h | h
              · exact hne h
              · exact hnode1notE (hmemsub _ h)
            · intro h
              exact hswnotE (hmemsub _ h)

/-- Claim C7 is false as stated: with unclustered-leaf list `[x, y]`
where `x` is also in the spine list and LLDP on `x` reports `y`, the run
creates the cluster `(x, y)`, which contains the spine `x`. -/
theorem c7_counterexample :
    createdPairs ((leaf_cluster_formation
        { emptyWorld with lldpSysNames := fun s => if s = "x" then ["y"] else [] }
        { defaultParams with spineList := ["x"], leafList := ["x", "y"] }
        ["x", "y"]).cmds) = [("x", "y")] ∧
    "x" ∈ ({ defaultParams with
      spineList := ["x"], leafList := ["x", "y"] } : Params).spineList := by
  constructor <;> decide

/-- Claim C7 amended: provided the unclustered leaves are pairwise
distinct and disjoint from the spine list, `leaf_cluster_formation`
pairs each first remaining leaf with an LLDP-reported, non-spine
neighbor still in the unclustered set; every member of a created cluster
comes from the initial unclustered set, no created cluster contains a
spine, and each leaf is placed in at most one created cluster. -/
theorem c7_greedy_pairing (w : World) (p : Params) (ncl : List String)
    (hnd : ncl.Nodup) (hsp : ∀ x ∈ ncl, x ∉ p.spineList) :
    (∀ q ∈ createdPairs (leaf_cluster_formation w p ncl).cmds,
      q.1 ∈ ncl ∧ q.2 ∈ ncl ∧ q.1 ∉ p.spineList ∧ q.2 ∉ p.spineList ∧
        q.2 ∈ tokensOf (w.lldpSysNames q.1)) ∧
    ((createdPairs (leaf_cluster_formation w p ncl).cmds).flatMap
      (fun q => [q.1, q.2])).Nodup := by
  obtain ⟨hA, hB⟩ := lcfLoop_spec w p ncl.length ncl hnd
  refine ⟨?_, hB⟩
  intro q hq
  obtain ⟨hq1, hq2, hq3, hq4⟩ := hA q hq
  exact ⟨hq1, hq2, hsp _ hq1, hq3, hq4⟩

/-- The fabric and parameters of the C7 witness: leaves a, b with LLDP
adjacency a to b and a separate spine s. -/
def c7GoodWorld : World :=
  { emptyWorld with lldpSysNames := fun s => if s = "a" then ["b"] else [] }

def c7GoodParams : Params :=
  { defaultParams with spineList := ["s"], leafList := ["a", "b"] }

theorem c7_greedy_pairing_witness :
    (∀ q ∈ createdPairs (leaf_cluster_formation c7GoodWorld c7GoodParams
        ["a", "b"]).cmds,
      q.1 ∈ ["a", "b"] ∧ q.2 ∈ ["a", "b"] ∧ q.1 ∉ c7GoodParams.spineList ∧
        q.2 ∉ c7GoodParams.spineList ∧
        q.2 ∈ tokensOf (c7GoodWorld.lldpSysNames q.1)) ∧
    ((createdPairs (leaf_cluster_formation c7GoodWorld c7GoodParams
        ["a", "b"]).cmds).flatMap (fun q => [q.1, q.2])).Nodup :=
  c7_greedy_pairing c7GoodWorld c7GoodParams ["a", "b"] (by decide) (by decide)

/-! ## Claim C3 -/

/-- The vrouter of a switch, always named `<switch>-vrouter`. -/
def mkVrouter (sw : String) : String := sw ++ "-vrouter"

/-- The leaf switches of a list of leaf clusters, in pair order. -/
def pairSwitches (pairs : List (String × String)) : List String :=
  pairs.flatMap (fun pr => [pr.1, pr.2])

/-- All switches of the generated fabric: spines then clustered leaves. -/
def fabricSwitches (spines : List String) (pairs : List (String × String)) :
    List String :=
  spines ++ pairSwitches pairs

/-- The vrouters of the clustered leaves, in pair order. -/
def pairVrouters (pairs : List (String × String)) : List String :=
  pairs.flatMap (fun pr => [mkVrouter pr.1, mkVrouter pr.2])

/-- The fabric generated from a spine list and a list of leaf clusters:
one vrouter per switch named `<switch>-vrouter` and located on it, and
one cluster per pair named `<node1>-to-<node2>-cluster` — exactly the
naming `leaf_cluster_formation` itself produces. -/
def mkFabricWorld (spines : List String) (pairs : List (String × String)) :
    World :=
  { emptyWorld with
    vrouterNames := spines.map mkVrouter ++ pairVrouters pairs
    vrouterLocation := fun v =>
      match (fabricSwitches spines pairs).find?
          (fun sw => decide (mkVrouter sw = v)) with
      | some sw => [sw]
      | none => []
    clusterNames := pairs.map (fun pr => pr.1 ++ "-to-" ++ pr.2 ++ "-cluster")
    clusterNode2ByNode1 := fun sw =>
      (pairs.filter (fun pr => decide (pr.1 = sw))).map (fun pr => pr.2)
    clusterNode1ByNode2 := fun sw =>
      (pairs.filter (fun pr => decide (pr.2 = sw))).map (fun pr => pr.1) }

/-- Module parameters matching the generated fabric: the spines as the
spine list, the clustered leaves as the leaf list. -/
def mkFabricParams (spines : List String) (pairs : List (String × String)) :
    Params :=
  { defaultParams with spineList := spines, leafList := pairSwitches pairs }

theorem mkVrouter_inj {a b : String} (h : mkVrouter a = mkVrouter b) : a = b := by
  have hd : a.data ++ "-vrouter".data = b.data ++ "-vrouter".data := by
    simpa [mkVrouter] using congrArg String.data h
  exact String.ext (List.append_cancel_right hd)

theorem find?_mkVrouter :
    ∀ (l : List String) (sw : String), sw ∈ l →
      l.find? (fun x => decide (mkVrouter x = mkVrouter sw)) = some sw := by
  intro l
  induction l with
  | nil => intro sw h; simp at h
  | cons y ys ih =>
    intro sw h
    by_cases hy : mkVrouter y = mkVrouter sw
    · have : y = sw := mkVrouter_inj hy
      subst this
      simp [List.find?_cons, hy]
    · have hsw : sw ∈ ys := by
        rcases List.mem_cons.1 h with h | h
        · exact absurd (h ▸ rfl) hy
        · exact h
      simp [List.find?_cons, hy, ih sw hsw]

/-- On the generated fabric, the location query of a switch's vrouter
answers that switch. -/
theorem fabric_location (spines : List String) (pairs : List (String × String))
    (sw : String) (h : sw ∈ fabricSwitches spines pairs) :
    firstTok ((mkFabricWorld spines pairs).vrouterLocation (mkVrouter sw)) = sw := by
  show firstTok (match (fabricSwitches spines pairs).find?
      (fun x => decide (mkVrouter x = mkVrouter sw)) with
    | some x => [x]
    | none => []) = sw
  rw [find?_mkVrouter (fabricSwitches spines pairs) sw h]
  rfl

theorem pairSwitches_cons (q : String × String) (rest : List (String × String)) :
    pairSwitches (q :: rest) = q.1 :: q.2 :: pairSwitches rest := rfl

theorem fst_mem_pairSwitches (pairs : List (String × String))
    (pr : String × String) (h : pr ∈ pairs) : pr.1 ∈ pairSwitches pairs :=
  List.mem_flatMap.2 ⟨pr, h, by simp⟩

theorem snd_mem_pairSwitches (pairs : List (String × String))
    (pr : String × String) (h : pr ∈ pairs) : pr.2 ∈ pairSwitches pairs :=
  List.mem_flatMap.2 ⟨pr, h, by simp⟩

theorem filter_fst_unique :
    ∀ (pairs : List (String × String)) (pr : String × String),
      (pairSwitches pairs).Nodup → pr ∈ pairs →
      pairs.filter (fun q => decide (q.1 = pr.1)) = [pr] := by
  intro pairs
  induction pairs with
  | nil => intro pr _ h; simp at h
  | cons q rest ih =>
    intro pr hnd hpr
    have hnd' : (q.1 :: q.2 :: pairSwitches rest).Nodup := by
      rw [← pairSwitches_cons]; exact hnd
    have hq1 : q.1 ∉ pairSwitches rest := fun hmem =>
      (List.nodup_cons.1 hnd').1 (List.mem_cons_of_mem _ hmem)
    by_cases hqpr : q.1 = pr.1
    · have hpr_eq : pr = q := by
        rcases List.mem_cons.1 hpr with h | h
        · exact h
        · exact absurd (by rw [hqpr]; exact fst_mem_pairSwitches rest pr h) hq1
      subst hpr_eq
      have hrest : rest.filter (fun q' => decide (q'.1 = pr.1)) = [] := by
        rw [List.filter_eq_nil_iff]
        intro q' hq'
        simp only [decide_eq_true_eq]
        intro hq'1
        exact hq1 (by rw [hqpr, ← hq'1]; exact fst_mem_pairSwitches rest q' hq')
      simp [List.filter_cons, hqpr, hrest]
    · have hndrest : (pairSwitches rest).Nodup :=
        (List.nodup_cons.1 (List.nodup_cons.1 hnd').2).2
      have hprrest : pr ∈ rest := by
        rcases List.mem_cons.1 hpr with h | h
        · exact absurd (by rw [h]) hqpr
        · exact h
      simp [List.filter_cons, hqpr, ih pr hndrest hprrest]

/-- On the generated fabric the partner-vrouter computation of
`assigning_bgp_as` resolves the cluster partner of a pair's first node
to the second node's vrouter. -/
theorem fabric_partner (spines : List String) (pairs : List (String × String))
    (pr : String × String) (hnd : (pairSwitches pairs).Nodup) (hpr : pr ∈ pairs)
    (hsucc : strContains "Success" pr.2 = false) :
    partnerVrouter (mkFabricWorld spines pairs) pr.1 = mkVrouter pr.2 := by
  show (if strContains "Success"
      (firstTok ((mkFabricWorld spines pairs).clusterNode2ByNode1 pr.1)) then
        firstTok ((mkFabricWorld spines pairs).clusterNode1ByNode2 pr.1) ++ "-vrouter"
      else
        firstTok ((mkFabricWorld spines pairs).clusterNode2ByNode1 pr.1) ++ "-vrouter") =
    mkVrouter pr.2
  have h2 : (mkFabricWorld spines pairs).clusterNode2ByNode1 pr.1 = [pr.2] := by
    show (pairs.filter (fun q => decide (q.1 = pr.1))).map (fun q => q.2) = [pr.2]
    rw [filter_fst_unique pairs pr hnd hpr]
    rfl
  rw [h2]
  rw [show firstTok [pr.2] = pr.2 from rfl]
  rw [hsucc]
  rfl

/-- A pair's own cluster name contains its first node as a substring. -/
theorem own_cluster_hit (n1 n2 : String) :
    strContains n1 (n1 ++ "-to-" ++ n2 ++ "-cluster") = true := by
  unfold strContains
  rw [decide_eq_true_iff]
  have : (n1 ++ "-to-" ++ n2 ++ "-cluster").data =
      n1.data ++ ("-to-" ++ n2 ++ "-cluster").data := by
    simp
  rw [this]
  exact (List.prefix_append n1.data _).isInfix

theorem StepOut.nil_append (s : StepOut) : StepOut.nil ++ s = s := rfl

theorem StepOut.append_assoc (a b c : StepOut) :
    a ++ b ++ c = a ++ (b ++ c) := by
  show ({ cmds := (a.cmds ++ b.cmds) ++ c.cmds,
          flags := (a.flags ++ b.flags) ++ c.flags } : StepOut) =
    { cmds := a.cmds ++ (b.cmds ++ c.cmds),
      flags := a.flags ++ (b.flags ++ c.flags) }
  simp

/-- Spine phase of `assigning_bgp_as` on the generated fabric: each
spine vrouter is assigned the raw base AS string and nothing else
happens; the leaf AS counter and the modified list are untouched. -/
theorem bgpAsGo_spines (spines : List String) (pairs : List (String × String))
    (bs : String) :
    ∀ sl : List String,
      (∀ sw ∈ sl, sw ∈ spines ∧ sw ∈ fabricSwitches spines pairs ∧
        sw ∉ pairSwitches pairs) →
      ∀ tail a modified,
        bgpAsGo (mkFabricWorld spines pairs) (mkFabricParams spines pairs) bs
            (sl.map mkVrouter ++ tail) a modified =
          ({ cmds := sl.map (fun sw => .vrouterModifyBgpAs (mkVrouter sw) bs),
             flags := sl.map (fun _ => true) } : StepOut) ++
            bgpAsGo (mkFabricWorld spines pairs) (mkFabricParams spines pairs) bs
              tail a modified := by
  intro sl
  induction sl with
  | nil =>
    intro _ tail a modified
    rfl
  | cons sw sl' ih =>
    intro hsl tail a modified
    obtain ⟨hspine, hfab, hnleaf⟩ := hsl sw (List.mem_cons_self sw sl')
    have hloc : firstTok ((mkFabricWorld spines pairs).vrouterLocation
        (mkVrouter sw)) = sw := fabric_location spines pairs sw hfab
    have hstep : bgpAsGo (mkFabricWorld spines pairs) (mkFabricParams spines pairs)
        bs (mkVrouter sw :: (sl'.map mkVrouter ++ tail)) a modified =
        ({ cmds := [.vrouterModifyBgpAs (mkVrouter sw) bs],
           flags := [true] } : StepOut) ++
          bgpAsGo (mkFabricWorld spines pairs) (mkFabricParams spines pairs) bs
            (sl'.map mkVrouter ++ tail) a modified := by
      simp only [bgpAsGo, hloc]
      rw [if_pos (show sw ∈ (mkFabricParams spines pairs).spineList from hspine)]
      rw [if_neg (show ¬(sw ∈ (mkFabricParams spines pairs).leafList ∧
        mkVrouter sw ∉ modified) from fun hh => hnleaf hh.1)]
    rw [show (sw :: sl').map mkVrouter ++ tail =
      mkVrouter sw :: (sl'.map mkVrouter ++ tail) from rfl]
    rw [hstep, ih (fun x hx => hsl x (List.mem_cons_of_mem sw hx)) tail a modified]
    rw [← StepOut.append_assoc]
    show _ = ({ cmds := _, flags := _ } : StepOut) ++ _
    congr 1

/-- If the leaf switches of the clusters are pairwise distinct, the
first node of one cluster differs from both nodes of any other. -/
theorem fst_ne_of_pairSwitches_nodup :
    ∀ (pairs : List (String × String)) (pr pr' : String × String),
      (pairSwitches pairs).Nodup → pr ∈ pairs → pr' ∈ pairs → pr ≠ pr' →
      pr'.1 ≠ pr.1 ∧ pr'.1 ≠ pr.2 := by
  intro pairs
  induction pairs with
  | nil => intro pr pr' _ h; simp at h
  | cons q restp ih =>
    intro pr pr' hnd hpr hpr' hne
    have hnd' : (q.1 :: q.2 :: pairSwitches restp).Nodup := by
      rw [← pairSwitches_cons]; exact hnd
    have hq1 : q.1 ∉ q.2 :: pairSwitches restp := (List.nodup_cons.1 hnd').1
    have hq1' : q.1 ∉ pairSwitches restp := fun h =>
      hq1 (List.mem_cons_of_mem _ h)
    have hq12 : q.1 ≠ q.2 := fun h => hq1 (h ▸ List.mem_cons_self _ _)
    have hq2 : q.2 ∉ pairSwitches restp :=
      (List.nodup_cons.1 (List.nodup_cons.1 hnd').2).1
    have hndrest : (pairSwitches restp).Nodup :=
      (List.nodup_cons.1 (List.nodup_cons.1 hnd').2).2
    rcases List.mem_cons.1 hpr with hprq | hpr
    · rcases List.mem_cons.1 hpr' with hpr'q | hpr'
      · exact absurd (hprq.trans hpr'q.symm) hne
      · constructor
        · intro h
          have heq : pr'.1 = q.1 := by rw [h, hprq]
          exact hq1' (by rw [← heq]; exact fst_mem_pairSwitches restp pr' hpr')
        · intro h
          have heq : pr'.1 = q.2 := by rw [h, hprq]
          exact hq2 (by rw [← heq]; exact fst_mem_pairSwitches restp pr' hpr')
    · rcases List.mem_cons.1 hpr' with hpr'q | hpr'
      · constructor
        · intro h
          have heq : q.1 = pr.1 := by rw [← hpr'q, h]
          exact hq1' (by rw [heq]; exact fst_mem_pairSwitches restp pr hpr)
        · intro h
          have heq : q.1 = pr.2 := by rw [← hpr'q, h]
          exact hq1' (by rw [heq]; exact snd_mem_pairSwitches restp pr hpr)
      · exact ih pr pr' hndrest hpr hpr' hne

/-- Pairwise-distinct cluster switches force the cluster list itself to
be duplicate-free. -/
theorem pairs_nodup_of_switches_nodup :
    ∀ pairs : List (String × String),
      (pairSwitches pairs).Nodup → pairs.Nodup := by
  intro pairs
  induction pairs with
  | nil => intro _; exact List.nodup_nil
  | cons q restp ih =>
    intro hnd
    have hnd' : (q.1 :: q.2 :: pairSwitches restp).Nodup := by
      rw [← pairSwitches_cons]; exact hnd
    have hq1 : q.1 ∉ q.2 :: pairSwitches restp := (List.nodup_cons.1 hnd').1
    have hndrest : (pairSwitches restp).Nodup :=
      (List.nodup_cons.1 (List.nodup_cons.1 hnd').2).2
    refine List.nodup_cons.2 ⟨?_, ih hndrest⟩
    intro hq
    exact hq1 (List.mem_cons_of_mem _ (fst_mem_pairSwitches restp q hq))

/-- Leaf phase of `assigning_bgp_as` on the generated fabric: starting
from leaf AS `a`, both vrouters of the k-th remaining cluster are
assigned AS `a + k` (the leaf AS advancing once per cluster), and every
issued command is one of these assignments. -/
theorem bgpAsGo_pairs (spines : List String) (pairs : List (String × String))
    (bs : String)
    (hnd : (fabricSwitches spines pairs).Nodup)
    (hsucc : ∀ sw ∈ pairSwitches pairs, strContains "Success" sw = false) :
    ∀ rest : List (String × String), rest.Nodup → (∀ pr ∈ rest, pr ∈ pairs) →
      ∀ a modified, (∀ pr ∈ rest, mkVrouter pr.1 ∉ modified) →
      (∀ k, k < rest.length →
        Cmd.vrouterModifyBgpAs (mkVrouter (rest.getD k ("", "")).1)
            (toString (a + k)) ∈
          (bgpAsGo (mkFabricWorld spines pairs) (mkFabricParams spines pairs) bs
            (pairVrouters rest) a modified).cmds ∧
        Cmd.vrouterModifyBgpAs (mkVrouter (rest.getD k ("", "")).2)
            (toString (a + k)) ∈
          (bgpAsGo (mkFabricWorld spines pairs) (mkFabricParams spines pairs) bs
            (pairVrouters rest) a modified).cmds) ∧
      (∀ c ∈ (bgpAsGo (mkFabricWorld spines pairs) (mkFabricParams spines pairs)
          bs (pairVrouters rest) a modified).cmds,
        ∃ k, k < rest.length ∧
          (c = Cmd.vrouterModifyBgpAs (mkVrouter (rest.getD k ("", "")).1)
              (toString (a + k)) ∨
           c = Cmd.vrouterModifyBgpAs (mkVrouter (rest.getD k ("", "")).2)
              (toString (a + k)))) := by
  intro rest
  induction rest with
  | nil =>
    intro _ _ a modified _
    constructor
    · intro k hk; simp at hk
    · intro c hc
      simp [pairVrouters, bgpAsGo, StepOut.nil] at hc
  | cons pr rest2 ih =>
    intro hrnd hsub a modified hmod
    have hprs : pr ∈ pairs := hsub pr (List.mem_cons_self pr rest2)
    have hps1 : pr.1 ∈ pairSwitches pairs := fst_mem_pairSwitches pairs pr hprs
    have hps2 : pr.2 ∈ pairSwitches pairs := snd_mem_pairSwitches pairs pr hprs
    have hfab1 : pr.1 ∈ fabricSwitches spines pairs := List.mem_append_right _ hps1
    have hfab2 : pr.2 ∈ fabricSwitches spines pairs := List.mem_append_right _ hps2
    have hdisj : List.Disjoint spines (pairSwitches pairs) :=
      List.disjoint_of_nodup_append hnd
    have hnsp1 : pr.1 ∉ spines := fun h => hdisj h hps1
    have hnsp2 : pr.2 ∉ spines := fun h => hdisj h hps2
    have hpnd : (pairSwitches pairs).Nodup := hnd.of_append_right
    have hloc1 := fabric_location spines pairs pr.1 hfab1
    have hloc2 := fabric_location spines pairs pr.2 hfab2
    have hpartner := fabric_partner spines pairs pr hpnd hprs (hsucc pr.2 hps2)
    have hclne : pairs.map (fun q => q.1 ++ "-to-" ++ q.2 ++ "-cluster") ≠ [] := by
      intro h
      rw [List.map_eq_nil_iff] at h
      exact (List.ne_nil_of_mem hprs) h
    have hcltok : tokensOf ((mkFabricWorld spines pairs).clusterNames) =
        pairs.map (fun q => q.1 ++ "-to-" ++ q.2 ++ "-cluster") := by
      show tokensOf (pairs.map fun q => q.1 ++ "-to-" ++ q.2 ++ "-cluster") = _
      rw [tokensOf, if_neg hclne]
    have hown : (pr.1 ++ "-to-" ++ pr.2 ++ "-cluster") ∈
        (tokensOf ((mkFabricWorld spines pairs).clusterNames)).filter
          (fun c => strContains pr.1 c) := by
      rw [hcltok]
      exact List.mem_filter.2
        ⟨List.mem_map.2 ⟨pr, hprs, rfl⟩, own_cluster_hit pr.1 pr.2⟩
    have hstep1 : bgpAsGo (mkFabricWorld spines pairs)
        (mkFabricParams spines pairs) bs (pairVrouters (pr :: rest2)) a modified =
      ((StepOut.nil ++
        { cmds := [.vrouterModifyBgpAs (mkVrouter pr.1) (toString a)],
          flags := [true] }) ++
        { cmds := ((tokensOf ((mkFabricWorld spines pairs).clusterNames)).filter
              (fun c => strContains pr.1 c)).map
              (fun _ => .vrouterModifyBgpAs (mkVrouter pr.2) (toString a)),
          flags := ((tokensOf ((mkFabricWorld spines pairs).clusterNames)).filter
              (fun c => strContains pr.1 c)).map (fun _ => true) }) ++
      bgpAsGo (mkFabricWorld spines pairs) (mkFabricParams spines pairs) bs
        (mkVrouter pr.2 :: pairVrouters rest2) (a + 1)
        (modified ++ [mkVrouter pr.1] ++
          ((tokensOf ((mkFabricWorld spines pairs).clusterNames)).filter
            (fun c => strContains pr.1 c)).map (fun _ => mkVrouter pr.2)) := by
      show bgpAsGo _ _ bs
        (mkVrouter pr.1 :: mkVrouter pr.2 :: pairVrouters rest2) a modified = _
      simp only [bgpAsGo, hloc1]
      rw [if_neg (show pr.1 ∉ (mkFabricParams spines pairs).spineList from hnsp1)]
      rw [if_pos (show pr.1 ∈ (mkFabricParams spines pairs).leafList ∧
        mkVrouter pr.1 ∉ modified from
        ⟨hps1, hmod pr (List.mem_cons_self pr rest2)⟩)]
      rw [hpartner]
    have hn2mem : mkVrouter pr.2 ∈ modified ++ [mkVrouter pr.1] ++
        ((tokensOf ((mkFabricWorld spines pairs).clusterNames)).filter
          (fun c => strContains pr.1 c)).map (fun _ => mkVrouter pr.2) :=
      List.mem_append_right _ (List.mem_map.2 ⟨_, hown, rfl⟩)
    have hstep2 : bgpAsGo (mkFabricWorld spines pairs)
        (mkFabricParams spines pairs) bs
        (mkVrouter pr.2 :: pairVrouters rest2) (a + 1)
        (modified ++ [mkVrouter pr.1] ++
          ((tokensOf ((mkFabricWorld spines pairs).clusterNames)).filter
            (fun c => strContains pr.1 c)).map (fun _ => mkVrouter pr.2)) =
      StepOut.nil ++ bgpAsGo (mkFabricWorld spines pairs)
        (mkFabricParams spines pairs) bs (pairVrouters rest2) (a + 1)
        (modified ++ [mkVrouter pr.1] ++
          ((tokensOf ((mkFabricWorld spines pairs).clusterNames)).filter
            (fun c => strContains pr.1 c)).map (fun _ => mkVrouter pr.2)) := by
      simp only [bgpAsGo, hloc2]
      rw [if_neg (show pr.2 ∉ (mkFabricParams spines pairs).spineList from hnsp2)]
      rw [if_neg (show ¬(pr.2 ∈ (mkFabricParams spines pairs).leafList ∧
        mkVrouter pr.2 ∉ (modified ++ [mkVrouter pr.1] ++
          ((tokensOf ((mkFabricWorld spines pairs).clusterNames)).filter
            (fun c => strContains pr.1 c)).map (fun _ => mkVrouter pr.2)))
        from fun hh => hh.2 hn2mem)]
    have hcmds : (bgpAsGo (mkFabricWorld spines pairs)
        (mkFabricParams spines pairs) bs
        (pairVrouters (pr :: rest2)) a modified).cmds =
      Cmd.vrouterModifyBgpAs (mkVrouter pr.1) (toString a) ::
      (((tokensOf ((mkFabricWorld spines pairs).clusterNames)).filter
          (fun c => strContains pr.1 c)).map
          (fun _ => Cmd.vrouterModifyBgpAs (mkVrouter pr.2) (toString a)) ++
        (bgpAsGo (mkFabricWorld spines pairs) (mkFabricParams spines pairs) bs
          (pairVrouters rest2) (a + 1)
          (modified ++ [mkVrouter pr.1] ++
            ((tokensOf ((mkFabricWorld spines pairs).clusterNames)).filter
              (fun c => strContains pr.1 c)).map
              (fun _ => mkVrouter pr.2))).cmds) := by
      rw [hstep1, hstep2]
      simp [StepOut.append_cmds, StepOut.nil]
    have hprne : ∀ pr' ∈ rest2, pr ≠ pr' := by
      intro pr' hpr' h
      exact (List.nodup_cons.1 hrnd).1 (h ▸ hpr')
    have hmod' : ∀ pr' ∈ rest2, mkVrouter pr'.1 ∉
        modified ++ [mkVrouter pr.1] ++
        ((tokensOf ((mkFabricWorld spines pairs).clusterNames)).filter
          (fun c => strContains pr.1 c)).map (fun _ => mkVrouter pr.2) := by
      intro pr' hpr' hmem
      obtain ⟨hne1, hne2⟩ := fst_ne_of_pairSwitches_nodup pairs pr pr' hpnd hprs
        (hsub pr' (List.mem_cons_of_mem pr hpr')) (hprne pr' hpr')
      rcases List.mem_append.1 hmem with hmem | hmem
      · rcases List.mem_append.1 hmem with hmem | hmem
        · exact hmod pr' (List.mem_cons_of_mem pr hpr') hmem
        · rw [List.mem_singleton] at hmem
          exact hne1 (mkVrouter_inj hmem)
      · obtain ⟨x, _, hx⟩ := List.mem_map.1 hmem
        exact hne2 (mkVrouter_inj hx.symm)
    obtain ⟨ihA, ihB⟩ := ih (List.Nodup.of_cons hrnd)
      (fun pr' h => hsub pr' (List.mem_cons_of_mem pr h)) (a + 1)
      (modified ++ [mkVrouter pr.1] ++
        ((tokensOf ((mkFabricWorld spines pairs).clusterNames)).filter
          (fun c => strContains pr.1 c)).map (fun _ => mkVrouter pr.2)) hmod'
    constructor
    · intro k hk
      match k with
      | 0 =>
        constructor
        · rw [hcmds]
          exact List.mem_cons_self _ _
        · rw [hcmds]
          exact List.mem_cons_of_mem _
            (List.mem_append_left _ (List.mem_map.2 ⟨_, hown, rfl⟩))
      | Nat.succ j =>
        have hj : j < rest2.length := by
          simpa using Nat.lt_of_succ_lt_succ (by simpa using hk)
        obtain ⟨ih1, ih2⟩ := ihA j hj
        have heq : a + 1 + j = a + (j + 1) := by omega
        rw [heq] at ih1 ih2
        constructor
        · rw [hcmds]
          simp only [List.getD_cons_succ]
          exact List.mem_cons_of_mem _ (List.mem_append_right _ ih1)
        · rw [hcmds]
          simp only [List.getD_cons_succ]
          exact List.mem_cons_of_mem _ (List.mem_append_right _ ih2)
    · intro c hc
      rw [hcmds] at hc
      rcases List.mem_cons.1 hc with hc | hc
      · exact ⟨0, by simp, Or.inl (by simpa using hc)⟩
      · rcases List.mem_append.1 hc with hc | hc
        · obtain ⟨x, _, hx⟩ := List.mem_map.1 hc
          exact ⟨0, by simp, Or.inr (by simpa using hx.symm)⟩
        · obtain ⟨j, hj, hor⟩ := ihB c hc
          refine ⟨j + 1, by simpa using Nat.succ_lt_succ hj, ?_⟩
          have heq : a + 1 + j = a + (j + 1) := by omega
          rw [heq] at hor
          simpa [List.getD_cons_succ] using hor

/-- Claim C3 is false as stated: on a fabric whose two leaves A and B
form one cluster that is merely named `c`, `assigning_bgp_as` never
matches the cluster loop's substring test (`'A' in 'c'` fails), so the
two vrouters of the same cluster receive the *different* AS numbers
65001 and 65002 instead of the same derived AS. -/
theorem c3_counterexample :
    (assigning_bgp_as
      { emptyWorld with
          vrouterNames := ["A-vrouter", "B-vrouter"]
          vrouterLocation := fun v =>
            if v = "A-vrouter" then ["A"]
            else if v = "B-vrouter" then ["B"] else []
          clusterNames := ["c"]
          clusterNode2ByNode1 := fun s => if s = "A" then ["B"] else []
          clusterNode1ByNode2 := fun s => if s = "B" then ["A"] else [] }
      { defaultParams with leafList := ["A", "B"] } "65000").cmds =
      [.vrouterModifyBgpAs "A-vrouter" "65001",
       .vrouterModifyBgpAs "B-vrouter" "65002"] ∧
    firstTok (({ emptyWorld with
          vrouterNames := ["A-vrouter", "B-vrouter"]
          vrouterLocation := fun v =>
            if v = "A-vrouter" then ["A"]
            else if v = "B-vrouter" then ["B"] else []
          clusterNames := ["c"]
          clusterNode2ByNode1 := fun s => if s = "A" then ["B"] else []
          clusterNode1ByNode2 := fun s => if s = "B" then ["A"] else [] } :
        World).clusterNode2ByNode1 "A") = "B" ∧
    ("65001" : String) ≠ "65002" := by
  refine ⟨by decide, by decide, by decide⟩

/-- Claim C3 amended: on fabrics where every vrouter is named
`<switch>-vrouter`, every leaf belongs to exactly one cluster named
`<node1>-to-<node2>-cluster` (the module's own cluster naming), all
switch names are pairwise distinct and none contains `Success`,
`assigning_bgp_as` gives every spine vrouter the raw base AS string, the
two leaf vrouters of the same cluster the same derived AS (the partner
addressed as `<partner-switch>-vrouter`), the k-th cluster in discovery
order the AS `int(base)+1+k`, and issues no other assignment. -/
theorem c3_cluster_as_assignment (spines : List String)
    (pairs : List (String × String)) (bs : String)
    (hnd : (fabricSwitches spines pairs).Nodup)
    (hsucc : ∀ sw ∈ fabricSwitches spines pairs,
      strContains "Success" sw = false) :
    (∀ sw ∈ spines,
      Cmd.vrouterModifyBgpAs (mkVrouter sw) bs ∈
        (assigning_bgp_as (mkFabricWorld spines pairs)
          (mkFabricParams spines pairs) bs).cmds) ∧
    (∀ k, k < pairs.length →
      Cmd.vrouterModifyBgpAs (mkVrouter (pairs.getD k ("", "")).1)
          (toString (pyInt bs + 1 + k)) ∈
        (assigning_bgp_as (mkFabricWorld spines pairs)
          (mkFabricParams spines pairs) bs).cmds ∧
      Cmd.vrouterModifyBgpAs (mkVrouter (pairs.getD k ("", "")).2)
          (toString (pyInt bs + 1 + k)) ∈
        (assigning_bgp_as (mkFabricWorld spines pairs)
          (mkFabricParams spines pairs) bs).cmds) ∧
    (∀ c ∈ (assigning_bgp_as (mkFabricWorld spines pairs)
        (mkFabricParams spines pairs) bs).cmds,
      (∃ sw ∈ spines, c = Cmd.vrouterModifyBgpAs (mkVrouter sw) bs) ∨
      (∃ k, k < pairs.length ∧
        (c = Cmd.vrouterModifyBgpAs (mkVrouter (pairs.getD k ("", "")).1)
            (toString (pyInt bs + 1 + k)) ∨
         c = Cmd.vrouterModifyBgpAs (mkVrouter (pairs.getD k ("", "")).2)
            (toString (pyInt bs + 1 + k))))) := by
  by_cases hv : spines.map mkVrouter ++ pairVrouters pairs = []
  · obtain ⟨hs, hp⟩ := List.append_eq_nil.1 hv
    have hs' : spines = [] := List.map_eq_nil_iff.1 hs
    have hp' : pairs = [] := by
      cases pairs with
      | nil => rfl
      | cons q t => simp [pairVrouters] at hp
    subst hs'; subst hp'
    refine ⟨by simp, by simp, ?_⟩
    intro c hc
    have hnilrun : (assigning_bgp_as (mkFabricWorld [] [])
        (mkFabricParams [] []) bs).cmds = [] := rfl
    rw [hnilrun] at hc
    simp at hc
  · have htok : tokensOf ((mkFabricWorld spines pairs).vrouterNames) =
        spines.map mkVrouter ++ pairVrouters pairs := by
      show tokensOf (spines.map mkVrouter ++ pairVrouters pairs) = _
      rw [tokensOf, if_neg hv]
    have hlen : 0 < (spines.map mkVrouter ++ pairVrouters pairs).length :=
      List.length_pos.2 hv
    have hrun : assigning_bgp_as (mkFabricWorld spines pairs)
        (mkFabricParams spines pairs) bs =
      bgpAsGo (mkFabricWorld spines pairs) (mkFabricParams spines pairs) bs
        (spines.map mkVrouter ++ pairVrouters pairs) (pyInt bs + 1) [] := by
      unfold assigning_bgp_as
      rw [htok, if_pos hlen]
    have hdisj : List.Disjoint spines (pairSwitches pairs) :=
      List.disjoint_of_nodup_append hnd
    have hsl : ∀ sw ∈ spines, sw ∈ spines ∧
        sw ∈ fabricSwitches spines pairs ∧ sw ∉ pairSwitches pairs :=
      fun sw hsw => ⟨hsw, List.mem_append_left _ hsw, fun hps => hdisj hsw hps⟩
    have hsplit := bgpAsGo_spines spines pairs bs spines hsl
      (pairVrouters pairs) (pyInt bs + 1) []
    obtain ⟨phA, phB⟩ := bgpAsGo_pairs spines pairs bs hnd
      (fun sw h => hsucc sw (List.mem_append_right _ h)) pairs
      (pairs_nodup_of_switches_nodup pairs hnd.of_append_right)
      (fun _ h => h) (pyInt bs + 1) []
      (fun pr _ => List.not_mem_nil (mkVrouter pr.1))
    have hcmds : (assigning_bgp_as (mkFabricWorld spines pairs)
        (mkFabricParams spines pairs) bs).cmds =
      spines.map (fun sw => Cmd.vrouterModifyBgpAs (mkVrouter sw) bs) ++
        (bgpAsGo (mkFabricWorld spines pairs) (mkFabricParams spines pairs) bs
          (pairVrouters pairs) (pyInt bs + 1) []).cmds := by
      rw [hrun, hsplit, StepOut.append_cmds]
    refine ⟨?_, ?_, ?_⟩
    · intro sw hsw
      rw [hcmds]
      exact List.mem_append_left _ (List.mem_map.2 ⟨sw, hsw, rfl⟩)
    · intro k hk
      obtain ⟨h1, h2⟩ := phA k hk
      rw [hcmds]
      exact ⟨List.mem_append_right _ h1, List.mem_append_right _ h2⟩
    · intro c hc
      rw [hcmds] at hc
      rcases List.mem_append.1 hc with hc | hc
      · obtain ⟨sw, hsw, hcw⟩ := List.mem_map.1 hc
        exact Or.inl ⟨sw, hsw, hcw.symm⟩
      · obtain ⟨k, hk, hor⟩ := phB c hc
        exact Or.inr ⟨k, hk, hor⟩

theorem c3_cluster_as_assignment_witness :
    Cmd.vrouterModifyBgpAs (mkVrouter "s1") "65000" ∈
      (assigning_bgp_as (mkFabricWorld ["s1"] [("l1", "l2"), ("l3", "l4")])
        (mkFabricParams ["s1"] [("l1", "l2"), ("l3", "l4")]) "65000").cmds ∧
    Cmd.vrouterModifyBgpAs
        (mkVrouter (([("l1", "l2"), ("l3", "l4")].getD 1 ("", "")).1))
        (toString (pyInt "65000" + 1 + 1)) ∈
      (assigning_bgp_as (mkFabricWorld ["s1"] [("l1", "l2"), ("l3", "l4")])
        (mkFabricParams ["s1"] [("l1", "l2"), ("l3", "l4")]) "65000").cmds ∧
    Cmd.vrouterModifyBgpAs
        (mkVrouter (([("l1", "l2"), ("l3", "l4")].getD 1 ("", "")).2))
        (toString (pyInt "65000" + 1 + 1)) ∈
      (assigning_bgp_as (mkFabricWorld ["s1"] [("l1", "l2"), ("l3", "l4")])
        (mkFabricParams ["s1"] [("l1", "l2"), ("l3", "l4")]) "65000").cmds := by
  obtain ⟨h1, h2, _⟩ := c3_cluster_as_assignment ["s1"]
    [("l1", "l2"), ("l3", "l4")] "65000" (by decide) (by decide)
  obtain ⟨h2a, h2b⟩ := h2 1 (by decide)
  exact ⟨h1 "s1" (by decide), h2a, h2b⟩
